import Mathlib

set_option linter.unusedVariables false

/-!
Verification of the NBA-Player-Game simulation engine.

This file is a shallow embedding, in Lean 4, of the deterministic
career/matchup simulation core of the repository (the relevant parts of
`script.js` and `future.js`), together with theorems settling the claims
about it.  JavaScript numbers are modelled as exact rationals (ℚ): every
arithmetic operation appearing in the embedded code is exact in the source
(additions, multiplications, divisions, `Math.round`, `Math.floor`,
`Math.min`/`Math.max` and comparisons), so ℚ is a faithful carrier for the
properties proved here.  Mutable generator state (the xorshift closure) is
threaded explicitly; the ambient `Math.random()` stream is modelled as an
explicit function `ℕ → ℚ` together with a cursor that is advanced at every
consumption site, in source order.
-/

/-- JavaScript `Math.round` on an exact rational: round half toward +∞. -/
def jsRound (x : ℚ) : ℤ := ⌊x + 1/2⌋

/-- `clamp(x, lo, hi) = Math.max(lo, Math.min(hi, x))` from `future.js`. -/
def clamp (x lo hi : ℚ) : ℚ := max lo (min hi x)

/-- Integer version of `clamp`, for values already known to be integral. -/
def clampZ (x lo hi : ℤ) : ℤ := max lo (min hi x)

/-- `clamp01(x) = Math.max(0, Math.min(1, x))` from `future.js`. -/
def clamp01 (x : ℚ) : ℚ := max 0 (min 1 x)

/-- JavaScript `a || b` on numbers, where the only falsy rational is 0
(our inputs are finite, so NaN does not arise). -/
def jsOrQ (a b : ℚ) : ℚ := if a = 0 then b else a

/-- JavaScript `a || b` on integral numbers. -/
def jsOrZ (a b : ℤ) : ℤ := if a = 0 then b else a

/-- Character-list prefix test, used to implement `String.includes`. -/
def listIsPrefix : List Char → List Char → Bool
  | [], _ => true
  | _ :: _, [] => false
  | a :: as, b :: bs => a == b && listIsPrefix as bs

/-- Character-list substring test, used to implement `String.includes`. -/
def listHasSub : List Char → List Char → Bool
  | [], pat => pat.isEmpty
  | a :: t, pat => listIsPrefix pat (a :: t) || listHasSub t pat

/-- JavaScript `s.includes(pat)`. -/
def strIncludes (s pat : String) : Bool := listHasSub s.toList pat.toList

/-- JavaScript `s.toUpperCase()` (the position strings are ASCII). -/
def strUpper (s : String) : String := s.map Char.toUpper

/-- JavaScript `s.toLowerCase()` (the position strings are ASCII). -/
def strLower (s : String) : String := s.map Char.toLower

/-- A historical player record as consumed by the simulation core
(`Name`/`Position` strings and the numeric stat columns; `FGpct` stands for
the source column `FG%`, which is not a legal Lean identifier).  Numeric
fields are exact rationals; the source's `Number(x) || 0` reads are the
identity on finite numbers and are noted where they occur. -/
structure SrcPlayer where
  Name : String
  Position : String
  PTS : ℚ
  AST : ℚ
  TRB : ℚ
  STL : ℚ
  BLK : ℚ
  PER : ℚ
  G : ℚ
  Height : ℚ
  FGpct : ℚ
  Debut : ℚ
deriving DecidableEq

/-- An all-zero player record, used only as the (unreachable) default of
list lookups whose indices are in range in the source. -/
def emptyPlayer : SrcPlayer :=
  { Name := "", Position := "", PTS := 0, AST := 0, TRB := 0, STL := 0,
    BLK := 0, PER := 0, G := 0, Height := 0, FGpct := 0, Debut := 0 }

namespace Script

/-- A matchup entity (`script.js`): a custom attribute-built player or a
drafted team.  Player entities leave `stl`/`blk`/`impact` at 0 and
`players` empty, matching the source objects where those properties are
absent (`undefined`), which every read site coerces to `0` / `[]`. -/
structure Entity where
  name : String
  pts : ℚ
  ast : ℚ
  reb : ℚ
  per : ℚ
  fg : ℚ
  stl : ℚ
  blk : ℚ
  impact : ℚ
  g : ℚ
  players : List SrcPlayer
deriving DecidableEq

/-- `seedFromNames` inner loop (`script.js` 808-816): FNV-1a-style hash of
the UTF-16 code units (here: the characters, which agree on the ASCII
names used) with a 32-bit `Math.imul` multiply. -/
def fnvFold : ℕ → List Char → ℕ
  | h, [] => h
  | h, c :: cs => fnvFold (((h ^^^ c.toNat) * 16777619) % 4294967296) cs

/-- `seedFromNames(a, b)` (`script.js` 808-816). -/
def seedFromNames (a b : String) : ℕ :=
  fnvFold 2166136261 (a ++ "::" ++ b).toList

/-- One state update of the xorshift32 generator built by `rngFromSeed`
(`script.js` 818-826), on the unsigned 32-bit view of the state. -/
def xorshift32 (s : ℕ) : ℕ :=
  let s1 := (s ^^^ (s <<< 13)) % 4294967296
  let s2 := s1 ^^^ (s1 >>> 17)
  (s2 ^^^ (s2 <<< 5)) % 4294967296

/-- One call of the closure returned by `rngFromSeed`: update the state,
return `(s >>> 0) / 4294967296` and the new state. -/
def rngNext (s : ℕ) : ℚ × ℕ :=
  let n := xorshift32 s
  ((n : ℚ) / 4294967296, n)

/-- `pick(rng, options)` (`script.js` 828-830): one generator draw, then
`options[Math.floor(rng() * options.length)]`.  The index is always in
range because the draw lies in `[0,1)`; `d` is the unreachable default. -/
def pick (s : ℕ) (options : List α) (d : α) : α × ℕ :=
  let (r, s1) := rngNext s
  (options.getD (⌊r * (options.length : ℚ)⌋).toNat d, s1)

/-- The destructuring swap `[arr[i], arr[j]] = [arr[j], arr[i]]`; the
out-of-range branch is unreachable at every call site. -/
def listSwap (l : List α) (i j : ℕ) : List α :=
  match l.get? i, l.get? j with
  | some vi, some vj => (l.set i vj).set j vi
  | _, _ => l

/-- The Fisher-Yates loop of `shuffleInPlace` (`script.js` 832-838),
counting `i` down from `arr.length - 1` to `1`. -/
def shuffleGo (l : List α) (s : ℕ) : ℕ → List α × ℕ
  | 0 => (l, s)
  | i + 1 =>
    let (r, s1) := rngNext s
    let j := (⌊r * ((i + 1 : ℕ) + 1 : ℚ)⌋).toNat
    shuffleGo (listSwap l (i + 1) j) s1 i

/-- `shuffleInPlace(rng, arr)` (`script.js` 832-838). -/
def shuffleInPlace (s : ℕ) (l : List α) : List α × ℕ :=
  shuffleGo l s (l.length - 1)

/-- `scoreFromStats(s, isTeam)` (`script.js` 840-846).  `s.impact || 0` is
the `impact` field (player entities carry 0 there, see `Entity`). -/
def scoreFromStats (s : Entity) (isTeam : Bool) : ℚ :=
  let pace : ℚ := if isTeam then 110 else 100
  let base := s.pts * 1.0 + s.ast * 0.4 + s.reb * 0.25 + s.per * 0.3 + s.fg * 0.2
  let impactBoost := if isTeam then s.impact * 0.35 else 0
  let raw := base + impactBoost
  max 60 (min 140 (raw / (if isTeam then 2.5 else 1.6) + pace))

/-- Position adjustment triple of `positionAdjustments` (`script.js`
848-854). -/
structure PosAdj where
  pts : ℚ
  ast : ℚ
  reb : ℚ

/-- `positionAdjustments(pos)` (`script.js` 848-854). -/
def positionAdjustments (pos : String) : PosAdj :=
  let p := strLower pos
  if strIncludes p "point" then { pts := 0, ast := 0.7, reb := -0.5 }
  else if strIncludes p "shooting" then { pts := 1.5, ast := 0, reb := -0.5 }
  else if strIncludes p "center" then { pts := -1.5, ast := -1.0, reb := 3.0 }
  else { pts := 0, ast := 0, reb := 0 }

/-- `playerImpact(pl)` (`script.js` 793-806). -/
def playerImpact (pl : SrcPlayer) : ℚ :=
  let pos := strUpper pl.Position
  let pts := pl.PTS
  let ast := pl.AST
  let reb := pl.TRB
  let per := pl.PER
  let hgt := pl.Height
  if strIncludes pos "PG" then ast * 1.6 + pts * 0.6 + per * 0.3
  else if strIncludes pos "SG" then pts * 1.6 + ast * 0.5 + per * 0.3
  else if strIncludes pos "SF" || strIncludes pos "PF" then per * 1.6 + pts * 0.6 + reb * 0.4
  else if strIncludes pos "C" then reb * 1.4 + hgt * 0.2 + per * 0.4
  else pts * 1.0 + ast * 0.4 + reb * 0.4 + per * 0.3

/-- A labelled stat differential of `topDiffs`. -/
structure Diff where
  label : String
  diff : ℚ

/-- `topDiffs(a, b)` (`script.js` 1009-1017): the five labelled
differentials sorted by descending absolute value (stable, as the modern
`Array.prototype.sort`). -/
def topDiffs (a b : Entity) : List Diff :=
  ([{ label := "Scoring", diff := a.pts - b.pts },
    { label := "Playmaking", diff := a.ast - b.ast },
    { label := "Rebounding", diff := a.reb - b.reb },
    { label := "Efficiency", diff := a.per - b.per },
    { label := "Shooting", diff := a.fg - b.fg }] : List Diff).mergeSort
    (fun x y => decide (|y.diff| ≤ |x.diff|))

/-- The role metrics record of `teamRoleMetrics`. -/
structure Roles where
  pgPlaymaking : ℚ
  sgScoring : ℚ
  wingEfficiency : ℚ
  centerBoards : ℚ

/-- One `forEach` step of `teamRoleMetrics` (`script.js` 1027-1033). -/
def roleStep (m : Roles) (pl : SrcPlayer) : Roles :=
  let pos := strUpper pl.Position
  let m := if strIncludes pos "PG" then { m with pgPlaymaking := m.pgPlaymaking + pl.AST } else m
  let m := if strIncludes pos "SG" then { m with sgScoring := m.sgScoring + pl.PTS } else m
  let m := if strIncludes pos "SF" || strIncludes pos "PF" then
    { m with wingEfficiency := m.wingEfficiency + pl.PER } else m
  if strIncludes pos "C" then { m with centerBoards := m.centerBoards + pl.TRB + pl.Height * 0.1 }
  else m

/-- `teamRoleMetrics(team)` (`script.js` 1019-1035). -/
def teamRoleMetrics (team : Entity) : Roles :=
  team.players.foldl roleStep
    { pgPlaymaking := 0, sgScoring := 0, wingEfficiency := 0, centerBoards := 0 }

/-- The `{leader, trailer}` key lists built by the factor helpers. -/
structure Factors where
  leader : List String
  trailer : List String

/-- A labelled magnitude used inside `buildTeamFactors`. -/
structure LabeledScore where
  label : String
  score : ℚ

/-- `buildTeamFactors(a, b)` (`script.js` 1037-1056). -/
def buildTeamFactors (a b : Entity) : Factors :=
  let diffs := ((topDiffs a b).take 2).map
    (fun d => ({ label := d.label ++ " edge", score := |d.diff| } : LabeledScore))
  let aRoles := teamRoleMetrics a
  let bRoles := teamRoleMetrics b
  let roleDiffs := ([
    { label := "PG playmaking edge", score := |aRoles.pgPlaymaking - bRoles.pgPlaymaking| },
    { label := "SG scoring edge", score := |aRoles.sgScoring - bRoles.sgScoring| },
    { label := "Wing efficiency edge", score := |aRoles.wingEfficiency - bRoles.wingEfficiency| },
    { label := "Center rebounding edge", score := |aRoles.centerBoards - bRoles.centerBoards| }
  ] : List LabeledScore).mergeSort (fun x y => decide (y.score ≤ x.score))
  let combined := diffs ++ [roleDiffs.getD 0 { label := "", score := 0 }]
  { leader := (combined.map (·.label)).take 3,
    trailer := (combined.map (fun d => d.label.replace "edge" "gap")).take 3 }

/-- `buildPlayerFactors(a, b)` (`script.js` 1058-1063). -/
def buildPlayerFactors (a b : Entity) : Factors :=
  let diffs := (topDiffs a b).take 3
  { leader := diffs.map (fun d => d.label ++ " advantage"),
    trailer := diffs.map (fun d => d.label ++ " deficit") }

/-- The 20 flavour actions of `buildPlayerMoments` (`script.js` 976-997). -/
def momentActions : List (SrcPlayer → String) :=
  [fun p => p.Name ++ " hits a pull-up three.",
   fun p => p.Name ++ " knocks down a corner three.",
   fun p => p.Name ++ " buries a catch-and-shoot three.",
   fun p => p.Name ++ " drains a midrange jumper.",
   fun p => p.Name ++ " attacks the rim for two.",
   fun p => p.Name ++ " finishes through contact.",
   fun p => p.Name ++ " euro-steps for the bucket.",
   fun p => p.Name ++ " throws down a fast-break dunk.",
   fun p => p.Name ++ " rises for a poster dunk.",
   fun p => p.Name ++ " threads a perfect assist.",
   fun p => p.Name ++ " whips a cross-court dime.",
   fun p => p.Name ++ " dishes inside for an easy finish.",
   fun p => p.Name ++ " grabs a big offensive board.",
   fun p => p.Name ++ " clears the glass on defense.",
   fun p => p.Name ++ " tips in a miss.",
   fun p => p.Name ++ " swats a shot at the rim.",
   fun p => p.Name ++ " comes up with a steal.",
   fun p => p.Name ++ " jumps a passing lane for a pick.",
   fun p => p.Name ++ " draws a charge.",
   fun p => p.Name ++ " takes over on the defensive end."]

/-- The `for i < 3` loop of `buildPlayerMoments`: per iteration one draw
picks the player, one draw picks the action. -/
def momentsGo (all : List (String × SrcPlayer)) : ℕ → ℕ → List String × ℕ
  | s, 0 => ([], s)
  | s, n + 1 =>
    let (choice, s1) := pick s all ("", emptyPlayer)
    let (act, s2) := pick s1 momentActions (fun _ => "")
    let (rest, s3) := momentsGo all s2 n
    ((choice.1 ++ ": " ++ act choice.2) :: rest, s3)

/-- `buildPlayerMoments(rng, a, b)` (`script.js` 969-1007). -/
def buildPlayerMoments (s : ℕ) (a b : Entity) : List String × ℕ :=
  let all := a.players.map (fun p => (a.name, p)) ++ b.players.map (fun p => (b.name, p))
  if all.isEmpty then ([], s)
  else momentsGo all s 3

/-- Result record of `simulateGameStory`. -/
structure Story where
  scoreA : ℤ
  scoreB : ℤ
  lines : List String
deriving DecidableEq

/-- The two `variance()` draws of `simulateGameStory` (`script.js`
857-863), starting from the seed derived from the two names; returns the
two variance values and the generator state after both draws. -/
def storyDraws (a b : Entity) : ℚ × ℚ × ℕ :=
  let seed := seedFromNames a.name b.name
  let (r1, s1) := rngNext seed
  let (r2, s2) := rngNext s1
  ((r1 - 0.5) * 8, (r2 - 0.5) * 8, s2)

/-- The two post-variance rounded scores of `simulateGameStory`
(`script.js` 862-863), before the tie-break. -/
def storyRawScores (a b : Entity) (isTeam : Bool) : ℤ × ℤ :=
  let baseA := scoreFromStats a isTeam
  let baseB := scoreFromStats b isTeam
  let (v1, v2, _) := storyDraws a b
  (jsRound (baseA + v1), jsRound (baseB + v2))

/-- The final scores of `simulateGameStory` after the tie-break
(`script.js` 862-867): on a rounded tie, the side with the greater-or-equal
pre-variance base score is bumped by 1. -/
def storyFinalScores (a b : Entity) (isTeam : Bool) : ℤ × ℤ :=
  let baseA := scoreFromStats a isTeam
  let baseB := scoreFromStats b isTeam
  let (rawA, rawB) := storyRawScores a b isTeam
  if rawA = rawB then
    if baseA ≥ baseB then (rawA + 1, rawB) else (rawA, rawB + 1)
  else (rawA, rawB)

/-- The `startLines` pool (`script.js` 879-888). -/
def startLines (leader : String) : List String :=
  [leader ++ " jumps out early with crisp execution.",
   leader ++ " starts strong and sets the tone.",
   leader ++ " seizes the opening momentum.",
   leader ++ " strikes first with efficient offense.",
   leader ++ " controls the early tempo.",
   leader ++ " opens with a confident run.",
   leader ++ " wins the first stretch with sharp ball movement.",
   leader ++ " comes out aggressive and takes the lead."]

/-- The `answerLines` pool (`script.js` 889-898). -/
def answerLines (trailer : String) : List String :=
  [trailer ++ " responds with a quick run.",
   trailer ++ " answers to keep it tight.",
   trailer ++ " steadies and closes the gap.",
   trailer ++ " counters with a burst of energy.",
   trailer ++ " rallies to trim the margin.",
   trailer ++ " stays within striking distance.",
   trailer ++ " finds rhythm and pulls closer.",
   trailer ++ " answers with timely stops and buckets."]

/-- The `halftimeLines` pool (`script.js` 899-908). -/
def halftimeLines (leader : String) : List String :=
  ["Halftime: " ++ leader ++ " leads by a small margin.",
   "Halftime: " ++ leader ++ " holds a slim advantage.",
   "Halftime: " ++ leader ++ " is narrowly ahead.",
   "Halftime: " ++ leader ++ " takes a modest lead into the break.",
   "Halftime: " ++ leader ++ " edges in front.",
   "Halftime: " ++ leader ++ " carries momentum into the locker room.",
   "Halftime: " ++ leader ++ " has the upper hand.",
   "Halftime: " ++ leader ++ " has a slight cushion."]

/-- The `thirdLines` pool (`script.js` 909-918). -/
def thirdLines (trailer : String) : List String :=
  [trailer ++ " pushes the pace in the third quarter.",
   trailer ++ " makes a third-quarter surge.",
   trailer ++ " tries to swing momentum after the break.",
   trailer ++ " turns up the pressure in Q3.",
   trailer ++ " strings together stops and runs.",
   trailer ++ " makes it a game after halftime.",
   trailer ++ " punches back in the third.",
   trailer ++ " chips away with a strong third quarter."]

/-- The `closeLines` pool (`script.js` 919-928). -/
def closeLines (leader : String) : List String :=
  [leader ++ " steadies late with smart possessions.",
   leader ++ " closes with disciplined execution.",
   leader ++ " finishes strong down the stretch.",
   leader ++ " executes in crunch time.",
   leader ++ " controls the final minutes.",
   leader ++ " gets key stops late.",
   leader ++ " puts the game away in the fourth.",
   leader ++ " seals it with late composure."]

/-- `simulateGameStory(a, b, detail, isTeam)` (`script.js` 856-967).

The parameters `mathRandom` and `mk` model the ambient `Math.random()`
stream and the call's position in it; the source body of
`simulateGameStory` and of every function it calls contains no
`Math.random()` call (all randomness comes from the xorshift generator
seeded by `seedFromNames`), which is why they are never consumed here —
this is exactly the determinism property of claim C1. -/
def simulateGameStory (mathRandom : ℕ → ℚ) (mk : ℕ) (a b : Entity)
    (detail : String) (isTeam : Bool) : Story :=
  let (_, _, s2) := storyDraws a b
  let (scoreA, scoreB) := storyFinalScores a b isTeam
  let leader := if scoreA ≥ scoreB then a else b
  let trailer := if scoreA ≥ scoreB then b else a
  let factors := if isTeam then buildTeamFactors a b else buildPlayerFactors a b
  let (lk, s3) := shuffleInPlace s2 factors.leader
  let leaderKeys := lk.take 3
  let (tk, s4) := shuffleInPlace s3 factors.trailer
  let trailerKeys := tk.take 3
  let (playerMoments, s5) := if isTeam then buildPlayerMoments s4 a b else ([], s4)
  let finalLine := "Final: " ++ a.name ++ " " ++ toString scoreA ++ " - " ++
    b.name ++ " " ++ toString scoreB
  let keysLine := "Keys for " ++ leader.name ++ ": " ++ String.intercalate ", " leaderKeys
  let strugglesLine := "Struggles for " ++ trailer.name ++ ": " ++
    String.intercalate ", " trailerKeys
  let tipoff := "Tipoff: " ++ a.name ++ " vs " ++ b.name
  let moment0 := if playerMoments.isEmpty then [] else [playerMoments.getD 0 ""]
  let moment1 := if 1 < playerMoments.length then [playerMoments.getD 1 ""] else []
  let lines : List String :=
    if detail == "light" then
      let (p1, t1) := pick s5 (startLines leader.name) ""
      let (p2, _) := pick t1 (thirdLines trailer.name) ""
      [tipoff, p1] ++ moment0 ++
        ["Halftime: " ++ leader.name ++ " leads.", p2] ++ moment1 ++
        [keysLine, finalLine]
    else if detail == "medium" then
      let (p1, t1) := pick s5 (startLines leader.name) ""
      let (p2, t2) := pick t1 (answerLines trailer.name) ""
      let (p3, t3) := pick t2 (halftimeLines leader.name) ""
      let (p4, t4) := pick t3 (thirdLines trailer.name) ""
      let (p5, _) := pick t4 (closeLines leader.name) ""
      [tipoff, p1] ++ moment0 ++ [p2, p3, p4] ++ moment1 ++
        [p5, keysLine, strugglesLine, finalLine]
    else
      let (p1, t1) := pick s5 (startLines leader.name) ""
      let (p2, t2) := pick t1 (answerLines trailer.name) ""
      let (p3, t3) := pick t2 (halftimeLines leader.name) ""
      let (p4, t4) := pick t3 (thirdLines trailer.name) ""
      let (p5, _) := pick t4 (closeLines leader.name) ""
      [tipoff, p1] ++ moment0 ++ [p2, p3, p4] ++ moment1 ++
        [p5, "Final possessions: " ++ leader.name ++ " seals the game.",
         keysLine, strugglesLine, finalLine]
  { scoreA := scoreA, scoreB := scoreB, lines := lines }

/-- One attribute pick: the chosen source player and the display string of
its origin (`sel.player`, `sel.source`). -/
structure AttrPick where
  player : SrcPlayer
  source : String
deriving DecidableEq

/-- The attribute-pick map of a participant (`p.attributes`); `none` is an
attribute that was not picked. -/
structure Attrs where
  shooting : Option AttrPick
  passing : Option AttrPick
  rebounding : Option AttrPick
  longevity : Option AttrPick
  athleticism : Option AttrPick
  height : Option AttrPick
deriving DecidableEq

/-- A matchup participant as read by `simulateMatchup`: display name,
optional team name (the source uses a falsy `teamName` for "unset", here
the empty string), position, attribute picks and the drafted roster slots
(`Object.values(p.team)` with empty slots `none`). -/
structure Participant where
  name : String
  teamName : String
  position : String
  attributes : Attrs
  team : List (Option SrcPlayer)
deriving DecidableEq

/-- `buildPlayerFromAttributes(p)` (`script.js` 748-764).  Each
`Number(pick?.STAT) || 0` read is `(pick.map stat).getD 0`; the `per`
field is the first non-falsy of the three PER reads. -/
def buildPlayerFromAttributes (p : Participant) : Entity :=
  let shooting := p.attributes.shooting.map (·.player)
  let passing := p.attributes.passing.map (·.player)
  let rebounding := p.attributes.rebounding.map (·.player)
  let longevity := p.attributes.longevity.map (·.player)
  let posAdj := positionAdjustments p.position
  { name := if p.teamName = "" then p.name else p.teamName,
    pts := (shooting.map (·.PTS)).getD 0 + posAdj.pts,
    ast := (passing.map (·.AST)).getD 0 + posAdj.ast,
    reb := (rebounding.map (·.TRB)).getD 0 + posAdj.reb,
    per := jsOrQ ((shooting.map (·.PER)).getD 0)
      (jsOrQ ((passing.map (·.PER)).getD 0) ((rebounding.map (·.PER)).getD 0)),
    fg := (shooting.map (·.FGpct)).getD 0,
    g := (longevity.map (·.G)).getD 0,
    stl := 0, blk := 0, impact := 0, players := [] }

/-- `buildTeamFromDraft(p)` (`script.js` 766-791).  The `reduce` over the
roster is expressed as per-column sums; `totals.stl`/`totals.blk` are
`undefined` in the source object (the accumulator has no such keys) and
are never read, so they are 0 here. -/
def buildTeamFromDraft (p : Participant) : Entity :=
  let playersArr := p.team.filterMap id
  let count : ℚ := if playersArr.length = 0 then 1 else (playersArr.length : ℚ)
  { name := if p.teamName = "" then p.name else p.teamName,
    pts := (playersArr.map (·.PTS)).sum,
    ast := (playersArr.map (·.AST)).sum,
    reb := (playersArr.map (·.TRB)).sum,
    per := (playersArr.map (·.PER)).sum / count,
    fg := (playersArr.map (·.FGpct)).sum / count,
    stl := 0, blk := 0,
    impact := (playersArr.map playerImpact).sum,
    g := 0, players := playersArr }

/-- `fmt(value, 1)` (`script.js` 280-284) on a finite number:
`toFixed(1)`, i.e. the nearest multiple of 1/10 with ties toward +∞
(ECMA-262 `Number.prototype.toFixed`), rendered with one decimal. -/
def fmt1 (q : ℚ) : String :=
  let n := jsRound (q * 10)
  let s := toString (n.natAbs / 10) ++ "." ++ toString (n.natAbs % 10)
  if n < 0 then "-" ++ s else s

/-- An entrant of `simulateMatchup`: the built entity plus the originating
participant. -/
structure Entrant where
  entity : Entity
  participant : Participant
deriving DecidableEq

/-- The all-empty entity (unreachable default of entrant lookups). -/
def emptyEntity : Entity :=
  { name := "", pts := 0, ast := 0, reb := 0, per := 0, fg := 0, stl := 0,
    blk := 0, impact := 0, g := 0, players := [] }

/-- The all-empty participant (unreachable default of entrant lookups). -/
def emptyParticipant : Participant :=
  { name := "", teamName := "", position := "",
    attributes := { shooting := none, passing := none, rebounding := none,
                    longevity := none, athleticism := none, height := none },
    team := [] }

/-- Unreachable default entrant for in-range list lookups. -/
def dummyEntrant : Entrant :=
  { entity := emptyEntity, participant := emptyParticipant }

/-- One attribute row of `buildStatLines` (`script.js` 1136-1147); absent
picks contribute no line. -/
def attrLine (label : String) (sel : Option AttrPick) : List String :=
  match sel with
  | none => []
  | some sel =>
    let pl := sel.player
    ["- " ++ label ++ ": " ++ sel.source ++ " | PTS " ++ fmt1 pl.PTS ++
      " AST " ++ fmt1 pl.AST ++ " REB " ++ fmt1 pl.TRB ++ " PER " ++
      fmt1 pl.PER ++ " FG% " ++ fmt1 pl.FGpct]

/-- `buildAttrLines(p)` inside `buildStatLines`, iterating the fixed
`attrOrder` with its label map. -/
def buildAttrLines (p : Participant) : List String :=
  (p.name ++ " Attribute Picks:") ::
    (attrLine "Shooting" p.attributes.shooting ++
     attrLine "Passing" p.attributes.passing ++
     attrLine "Rebounding" p.attributes.rebounding ++
     attrLine "Longevity" p.attributes.longevity ++
     attrLine "Athleticism" p.attributes.athleticism ++
     attrLine "Height" p.attributes.height)

/-- `buildTeamLines(team)` inside `buildStatLines` (`script.js`
1152-1158). -/
def buildTeamLines (t : Entrant) : List String :=
  (t.entity.name ++ " Roster:") ::
    t.entity.players.map (fun pl =>
      "- " ++ pl.Name ++ " | PTS " ++ fmt1 pl.PTS ++ " AST " ++ fmt1 pl.AST ++
      " REB " ++ fmt1 pl.TRB ++ " PER " ++ fmt1 pl.PER ++ " FG% " ++ fmt1 pl.FGpct)

/-- `buildStatLines(a, b, isTeam)` (`script.js` 1131-1162). -/
def buildStatLines (a b : Entrant) (isTeam : Bool) : List String :=
  if !isTeam then buildAttrLines a.participant ++ [""] ++ buildAttrLines b.participant
  else buildTeamLines a ++ [""] ++ buildTeamLines b

/-- `renderMatch(a, b, roundLabel)` (`script.js` 1080-1090): the lines it
pushes and the winner it returns. -/
def renderMatch (amb : ℕ → ℚ) (k : ℕ) (a b : Entrant) (roundLabel : String)
    (detail : String) (isTeam : Bool) : List String × Entrant :=
  let story := simulateGameStory amb k a.entity b.entity detail isTeam
  let header := if isTeam then "Team Battle: " ++ a.entity.name ++ " vs " ++ b.entity.name
    else "Custom Players: " ++ a.entity.name ++ " vs " ++ b.entity.name
  let winner := if story.scoreA ≥ story.scoreB then a else b
  ([roundLabel ++ " - " ++ header, ""] ++ buildStatLines a b isTeam ++ [""] ++
    story.lines ++ [""], winner)

/-- The pairing loop `for (i = 0; i < current.length; i += 2)` of the
tournament.  The singleton case cannot arise: the caller removes a bye
first whenever the round's entrant count is odd. -/
def pairUp : List Entrant → List (Entrant × Entrant)
  | [] => []
  | [_] => []
  | x :: y :: rest => (x, y) :: pairUp rest

/-- Length of `pairUp` (proof term used by the termination argument of
the tournament loop below). -/
def pairUp_length : ∀ l : List Entrant, (pairUp l).length = l.length / 2
  | [] => by simp [pairUp]
  | [_] => by simp [pairUp]
  | _ :: _ :: rest => by
    simp only [pairUp, List.length_cons, pairUp_length rest]
    omega

/-- `eraseIdx` never lengthens a list (proof term used by the termination
argument of the tournament loop below). -/
def length_eraseIdx_le : ∀ (l : List Entrant) (i : ℕ),
    (l.eraseIdx i).length ≤ l.length
  | [], _ => Nat.le_refl _
  | _ :: _, 0 => by simp [List.eraseIdx]
  | _ :: t, i + 1 => by
    simpa [List.eraseIdx] using length_eraseIdx_le t i

/-- The `while (current.length > 1)` tournament loop of `simulateMatchup`
(`script.js` 1101-1116): per round, an odd entrant count consumes one
`Math.random()` draw to pick a bye (the only ambient-randomness
consumption in the loop), then consecutive entrants play seeded matches;
returns the accumulated round lines and the final entrant list. -/
def tournamentLoop (amb : ℕ → ℚ) (detail : String) (isTeam : Bool)
    (k round : ℕ) (current : List Entrant) : List String × List Entrant :=
  if h1 : current.length ≤ 1 then ([], current)
  else if h2 : current.length % 2 = 1 then
    let r := amb k
    let byeIdx := (⌊r * (current.length : ℚ)⌋).toNat
    let bye := current.getD byeIdx dummyEntrant
    let rest := current.eraseIdx byeIdx
    let results := (pairUp rest).map
      (fun pq => renderMatch amb (k + 1) pq.1 pq.2 ("Round " ++ toString round) detail isTeam)
    let next := bye :: results.map Prod.snd
    let (tailLines, final) := tournamentLoop amb detail isTeam (k + 1) (round + 1) next
    (["Round " ++ toString round, "",
      bye.entity.name ++ " receives a bye.", ""] ++
      (results.map Prod.fst).flatten ++ tailLines, final)
  else
    let results := (pairUp current).map
      (fun pq => renderMatch amb k pq.1 pq.2 ("Round " ++ toString round) detail isTeam)
    let next := results.map Prod.snd
    let (tailLines, final) := tournamentLoop amb detail isTeam k (round + 1) next
    (["Round " ++ toString round, ""] ++ (results.map Prod.fst).flatten ++ tailLines, final)
termination_by current.length
decreasing_by
  · simp only [List.length_cons, List.length_map, pairUp_length]
    have h := length_eraseIdx_le current (Int.toNat ⌊amb k * (current.length : ℚ)⌋)
    omega
  · simp only [List.length_map, pairUp_length]
    omega

/-- `simulateMatchup(detail)` (`script.js` 1065-1129).  The page globals
`participants` and `gameMode` are parameters here; `entShuffle` models the
implementation-defined permutation produced by
`entrants.slice().sort(() => 0.5 - Math.random())` (a random-comparator
sort whose result the ECMA standard leaves unspecified); `amb`/`k` model
the ambient `Math.random()` stream used for tournament byes. -/
def simulateMatchup (amb : ℕ → ℚ) (k : ℕ)
    (entShuffle : List Entrant → List Entrant)
    (participants : List Participant) (gameMode : String)
    (detail : String) : String :=
  if participants.length < 2 then
    "Need at least 2 participants to simulate a matchup."
  else
    let isTeam := gameMode == "team"
    let entrants := participants.map (fun p =>
      if gameMode == "attribute" then
        ({ entity := buildPlayerFromAttributes p, participant := p } : Entrant)
      else
        ({ entity := buildTeamFromDraft p, participant := p } : Entrant))
    if entrants.length = 2 then
      let (ls, _) := renderMatch amb k (entrants.getD 0 dummyEntrant)
        (entrants.getD 1 dummyEntrant) "Match" detail isTeam
      String.intercalate "\n" ls
    else
      let current := entShuffle entrants
      let (tlines, final) := tournamentLoop amb detail isTeam k 1 current
      String.intercalate "\n" (["Tournament Bracket", ""] ++ tlines ++
        ["Champion: " ++ (final.getD 0 dummyEntrant).entity.name, "",
         "=== ANALYTICAL INSIGHTS ===",
         "• Draft selections revealed attribute priorities across all participants.",
         "• Combined pick strategy determines competitive balance in matchups.",
         "• Team context amplifies mid-tier players more than elite players.",
         "• Hall of Fame requires sustained excellence, not peak dominance."])

end Script

namespace Future

/-- Input record of `computeAthleticism` (`future.js` 51,
`{ per, fg, reb, g, height }`). -/
structure AthInput where
  per : ℚ
  fg : ℚ
  reb : ℚ
  g : ℚ
  height : ℚ
deriving DecidableEq

/-- `computeAthleticism` (`future.js` 51-68, identical in `script.js`
49-66).  A falsy (zero) numeric input short-circuits the corresponding
bonus to 0 via the source's `x ? ... : 0` guards. -/
def computeAthleticism (i : AthInput) : ℚ :=
  if i.per = 0 then 0
  else
    let perNorm := min (max ((i.per - 15) / 10) (-1.5)) 1.5
    let fgPct := if i.fg = 0 then 0 else if 1 < i.fg then i.fg / 100 else i.fg
    let fgBonus := if fgPct = 0 then 0 else (fgPct - 0.45) * 4
    let rebBonus := if i.reb = 0 then 0 else min (i.reb / 10) 1.2
    let durability := if i.g = 0 then 0 else min (i.g / 1200) 1.0
    let heightBonus := if i.height = 0 then 0 else (i.height - 78) / 12
    0.45 * perNorm + 0.20 * fgBonus + 0.20 * rebBonus +
      0.10 * durability + 0.05 * heightBonus

/-- Position adjustment record of `positionAdjustments` (`future.js`
388-400). -/
structure Adj5 where
  pts : ℚ
  ast : ℚ
  reb : ℚ
  stl : ℚ
  blk : ℚ

/-- `positionAdjustments(pos)` (`future.js` 388-400). -/
def positionAdjustments (pos : String) : Adj5 :=
  let p := strLower pos
  if strIncludes p "point" then { pts := 0, ast := 0.7, reb := -0.5, stl := 0, blk := 0 }
  else if strIncludes p "shooting" then { pts := 1.5, ast := 0, reb := -0.5, stl := 0, blk := 0 }
  else if strIncludes p "center" then { pts := -1.5, ast := -1.0, reb := 3.0, stl := 0, blk := 0 }
  else { pts := 0, ast := 0, reb := 0, stl := 0, blk := 0 }

/-- `gNorm` of `careerFactorByYear` (`future.js` 404). -/
def gNormOf (g : ℚ) : ℚ := clamp01 ((g - 300) / 1200)

/-- `peakStart` of `careerFactorByYear` (`future.js` 405). -/
def peakStartOf (g : ℚ) : ℤ := jsRound (2 + gNormOf g * 2)

/-- `peakLength` of `careerFactorByYear` (`future.js` 406). -/
def peakLengthOf (g : ℚ) : ℤ := jsRound (1 + gNormOf g * 3)

/-- `peakEnd` of `careerFactorByYear` (`future.js` 407). -/
def peakEndOf (g ty : ℚ) : ℚ :=
  min ty ((peakStartOf g : ℚ) + (peakLengthOf g : ℚ) - 1)

/-- `startFloor` of `careerFactorByYear` (`future.js` 409). -/
def startFloorOf (g : ℚ) : ℚ := 0.75 + gNormOf g * 0.08

/-- `peakCeil` of `careerFactorByYear` (`future.js` 410). -/
def peakCeilOf (g : ℚ) : ℚ := 1.08 + gNormOf g * 0.12

/-- `declineFloor` of `careerFactorByYear` (`future.js` 411). -/
def declineFloorOf (g : ℚ) : ℚ := 0.82 + gNormOf g * 0.05

/-- The rise branch of `careerFactorByYear` (`future.js` 413-416). -/
def riseSegment (g yi : ℚ) : ℚ :=
  startFloorOf g + (yi - 1) / max 1 ((peakStartOf g : ℚ) - 1) * (1.0 - startFloorOf g)

/-- The peak branch of `careerFactorByYear` (`future.js` 417-419). -/
def peakSegment (g ty yi : ℚ) : ℚ :=
  1.0 + (yi - (peakStartOf g : ℚ)) / max 1 (peakEndOf g ty - (peakStartOf g : ℚ)) *
    (peakCeilOf g - 1.0)

/-- The decline branch of `careerFactorByYear` (`future.js` 421-422). -/
def declineSegment (g ty yi : ℚ) : ℚ :=
  peakCeilOf g - (yi - peakEndOf g ty) / max 1 (ty - peakEndOf g ty) *
    (peakCeilOf g - declineFloorOf g)

/-- `careerFactorByYear(yearIndex, longevityG, totalYears)` (`future.js`
402-423). -/
def careerFactorByYear (yearIndex longevityG totalYears : ℚ) : ℚ :=
  if yearIndex < (peakStartOf longevityG : ℚ) then riseSegment longevityG yearIndex
  else if yearIndex ≤ peakEndOf longevityG totalYears then
    peakSegment longevityG totalYears yearIndex
  else declineSegment longevityG totalYears yearIndex

/-- `totalGames = Math.max(0, Math.round(num(peak.g)))` (`future.js` 855);
`num` is the identity on our finite rationals. -/
def totalGamesOf (g : ℚ) : ℕ := (max 0 (jsRound g)).toNat

/-- `totalYears = clamp(Math.round(totalGames / 82) || 1, 1, 20)`
(`future.js` 856). -/
def totalYearsOf (g : ℚ) : ℕ :=
  (clampZ (jsOrZ (jsRound ((totalGamesOf g : ℚ) / 82)) 1) 1 20).toNat

/-- `baseGames = Math.floor(totalGames / totalYears)` (`future.js` 857). -/
def baseGamesOf (g : ℚ) : ℕ := totalGamesOf g / totalYearsOf g

/-- `remainderGames = totalGames - baseGames * totalYears` (`future.js`
858). -/
def remainderGamesOf (g : ℚ) : ℕ :=
  totalGamesOf g - baseGamesOf g * totalYearsOf g

/-- `gamesBySeason` (`future.js` 859-861): season `i` (0-based) gets
`baseGames + (i < remainderGames ? 1 : 0)` games. -/
def gamesScheduleOf (g : ℚ) : List ℕ :=
  (List.range (totalYearsOf g)).map
    (fun i => baseGamesOf g + if i < remainderGamesOf g then 1 else 0)

/-- The hard-coded fallback team list of `pickTeamsForEra` (`future.js`
844-849). -/
def fallbackTeams : List String :=
  ["Lakers", "Celtics", "Bulls", "Warriors", "Spurs",
   "Heat", "Knicks", "Suns", "Mavs", "Nuggets",
   "Raptors", "Jazz", "Sixers", "Pistons", "Hawks",
   "Clippers", "Pacers", "Wizards", "Bucks", "Blazers"]

/-- `pickTeamsForEra(era)` (`future.js` 840-850), with the looked-up
`teamsByEra[era]` passed in as an optional list. -/
def pickTeamsForEra (eraTeams : Option (List String)) : List String :=
  match eraTeams with
  | some l => if 10 ≤ l.length then l else fallbackTeams
  | none => fallbackTeams

/-- Digits-to-number accumulator for `parseInt`. -/
def digitsToNat (ds : List Char) : ℕ :=
  ds.foldl (fun n c => n * 10 + (c.toNat - 48)) 0

/-- JavaScript `parseInt` on the relevant inputs: the longest digit
prefix, or `none` (NaN) when there is none. -/
def parseIntPrefix (l : List Char) : Option ℕ :=
  let ds := l.takeWhile Char.isDigit
  if ds.isEmpty then none else some (digitsToNat ds)

/-- `inEra(player)` (`future.js` 160-166); the `Number.isFinite` guard on
`Debut` is vacuous on our exact rationals, and a NaN `start` (no digit
prefix) makes both comparisons false, i.e. `false`. -/
def inEra (eraFilter : String) (p : SrcPlayer) : Bool :=
  if eraFilter == "all" then true
  else
    match parseIntPrefix (eraFilter.toList.take 4) with
    | none => false
    | some start => decide ((start : ℚ) ≤ p.Debut) && decide (p.Debut < (start : ℚ) + 10)

/-- `randn()` (`future.js` 168-171): four ambient `Math.random()` draws,
`(r1 + r2 + r3 + r4 - 2) / 2`; returns the value and the advanced
cursor. -/
def randn (amb : ℕ → ℚ) (k : ℕ) : ℚ × ℕ :=
  ((amb k + amb (k + 1) + amb (k + 2) + amb (k + 3) - 2) / 2, k + 4)

/-- The per-player season-average baselines stored in a league entry
(`future.js` 872-881). -/
structure LeagueBase where
  pts : ℚ
  ast : ℚ
  reb : ℚ
  stl : ℚ
  blk : ℚ
  per : ℚ
  fg : ℚ
  ath : ℚ
deriving DecidableEq

/-- One synthetic-league background player (`future.js` 865-883). -/
structure LeaguePlayer where
  name : String
  team : String
  base : LeagueBase
deriving DecidableEq

/-- The league-construction `map` (`future.js` 865-883): each sampled pool
player gets a uniformly drawn team (one ambient draw, in list order) and
its baselines, including the computed athleticism. -/
def mkLeague (amb : ℕ → ℚ) (teams : List String) :
    List SrcPlayer → ℕ → List LeaguePlayer × ℕ
  | [], k => ([], k)
  | p :: rest, k =>
    let ath := computeAthleticism
      { per := p.PER, fg := p.FGpct, reb := p.TRB, g := p.G, height := p.Height }
    let team := teams.getD ((⌊amb k * (teams.length : ℚ)⌋).toNat) ""
    let (others, k1) := mkLeague amb teams rest (k + 1)
    ({ name := p.Name, team := team,
       base := { pts := p.PTS, ast := p.AST, reb := p.TRB, stl := p.STL,
                 blk := p.BLK, per := p.PER, fg := p.FGpct, ath := ath } } :: others, k1)

/-- One row of a season's participant pool (`future.js` 933-956). -/
structure SeasonPlayer where
  name : String
  team : String
  pts : ℚ
  ast : ℚ
  reb : ℚ
  stl : ℚ
  blk : ℚ
  per : ℚ
  score : ℚ
  isCustom : Bool
deriving DecidableEq

/-- Unreachable default for head lookups of nonempty participant lists. -/
def dummySeasonPlayer : SeasonPlayer :=
  { name := "", team := "", pts := 0, ast := 0, reb := 0, stl := 0, blk := 0,
    per := 0, score := 0, isCustom := false }

/-- One entry of the MIP `improv` list: the spread `{ ...pl, delta }`
(`future.js` 978-980). -/
structure ImprovEntry where
  pl : SeasonPlayer
  delta : ℚ
deriving DecidableEq

/-- Unreachable default for head lookups of nonempty improvement lists. -/
def dummyImprov : ImprovEntry := { pl := dummySeasonPlayer, delta := 0 }

/-- The four top-10 leaderboards of a season (`future.js` 960-963). -/
structure Boards where
  topPts : List SeasonPlayer
  topAst : List SeasonPlayer
  topReb : List SeasonPlayer
  topPer : List SeasonPlayer
deriving DecidableEq

/-- The custom player's line of one season record (`future.js`
1020-1026). -/
structure CustomSeason where
  name : String
  pts : ℚ
  ast : ℚ
  reb : ℚ
  stl : ℚ
  blk : ℚ
  per : ℚ
  team : String
  wins : ℤ
  games : ℕ
deriving DecidableEq

/-- One season record pushed onto `seasons` (`future.js` 1018-1035). -/
structure SeasonRec where
  year : ℕ
  custom : CustomSeason
  leaderboards : Boards
  mvp : SeasonPlayer
  roy : Option SeasonPlayer
  mip : Option ImprovEntry
  champion : String
  finalsMVP : SeasonPlayer
deriving DecidableEq

/-- The running award tallies (`future.js` 907). -/
structure Awards where
  MVP : ℕ
  ROY : ℕ
  MIP : ℕ
  AllPro : ℕ
  Champs : ℕ
  FinalsMVP : ℕ
deriving DecidableEq

/-- The record returned by `simulateCareer` (`future.js` 1059-1071); the
`advancedMetrics` block (`future.js` 1052-1057) is omitted: it is computed
after every field modelled here, cannot affect them, and involves
`Math.sqrt`, which has no exact rational embedding. -/
structure CareerResult where
  seasons : List SeasonRec
  awards : Awards
  hof : Bool
  customName : String
  totalGames : ℕ
  totalYears : ℕ

/-- A stable descending sort by a projection, the meaning of the source's
`[...xs].sort((a, b) => f(b) - f(a))` under the (standard-mandated) stable
`Array.prototype.sort`. -/
def sortDescBy (f : SeasonPlayer → ℚ) (l : List SeasonPlayer) : List SeasonPlayer :=
  l.mergeSort (fun a b => decide (f b ≤ f a))

/-- Stable descending sort of the MIP improvement list by `delta`
(`future.js` 981). -/
def sortDescDelta (l : List ImprovEntry) : List ImprovEntry :=
  l.mergeSort (fun a b => decide (b.delta ≤ a.delta))

/-- Construction of the MIP `improv` list (`future.js` 978-980): the
custom player's reference prior is `lastYearScore` (JS `score - null`
coerces a null prior to 0, hence `getD 0`), a background player's prior is
`score - Math.random() * 3` — one ambient draw per background player, in
list order. -/
def mipImprov (amb : ℕ → ℚ) :
    ℕ → List SeasonPlayer → Option ℚ → List ImprovEntry × ℕ
  | k, [], _ => ([], k)
  | k, pl :: rest, lys =>
    if pl.isCustom then
      let prev := lys.getD 0
      let (others, k1) := mipImprov amb k rest lys
      ({ pl := pl, delta := pl.score - prev } :: others, k1)
    else
      let prev := pl.score - amb k * 3
      let (others, k1) := mipImprov amb (k + 1) rest lys
      ({ pl := pl, delta := pl.score - prev } :: others, k1)

/-- `mip = improv[0]` after the descending sort by delta (`future.js`
981-982). -/
def mipSelect (l : List ImprovEntry) : Option ImprovEntry :=
  (sortDescDelta l).head?

/-- One accumulation step of the `teamTotals` object (`future.js`
986-989), preserving first-insertion key order as JS objects do. -/
def addTeamScore : List (String × ℚ) → String → ℚ → List (String × ℚ)
  | [], t, sc => [(t, sc)]
  | (t0, s0) :: rest, t, sc =>
    if t0 == t then (t0, s0 + sc) :: rest
    else (t0, s0) :: addTeamScore rest t sc

/-- `teamTotals` as an insertion-ordered association list (`future.js`
986-989). -/
def teamTotalsOf (sps : List SeasonPlayer) : List (String × ℚ) :=
  sps.foldl (fun acc pl => addTeamScore acc pl.team pl.score) []

/-- `Object.entries(teamTotals).sort((a, b) => b[1] - a[1])` (`future.js`
991). -/
def sortEntriesDesc (l : List (String × ℚ)) : List (String × ℚ) :=
  l.mergeSort (fun a b => decide (b.2 ≤ a.2))

/-- The custom player's adjusted baseline (`future.js` 890-904):
`peak` stats plus position adjustments, with `g`, `ath`, `height` carried
through unadjusted. -/
structure Baseline where
  pts : ℚ
  ast : ℚ
  reb : ℚ
  stl : ℚ
  blk : ℚ
  g : ℚ
  ath : ℚ
  height : ℚ
deriving DecidableEq

/-- The per-run context of the season loop: the ambient stream, the
sampled league, the custom player's identity and adjusted baseline, the
career length, and the games schedule. -/
structure CareerCtx where
  amb : ℕ → ℚ
  league : List LeaguePlayer
  customName : String
  customTeam : String
  base : Baseline
  totalYears : ℕ
  schedule : List ℕ

/-- The mutable state threaded through the season loop (`future.js`
906-910): ambient cursor, award tallies, the custom player's previous
season score (`null` before year 1), and the season records so far. -/
structure LoopSt where
  k : ℕ
  awards : Awards
  lastYearScore : Option ℚ
  seasons : List SeasonRec

/-- The `league.forEach` season-simulation loop (`future.js` 941-957):
six `randn` noises per background player, in source order. -/
def leagueSeason (amb : ℕ → ℚ) : ℕ → List LeaguePlayer → List SeasonPlayer × ℕ
  | k, [] => ([], k)
  | k, pl :: rest =>
    let (n1, k1) := randn amb k
    let ptsL := clamp (pl.base.pts + n1 * 2.0) 0 40
    let (n2, k2) := randn amb k1
    let astL := clamp (pl.base.ast + n2 * 1.0) 0 15
    let (n3, k3) := randn amb k2
    let rebL := clamp (pl.base.reb + n3 * 1.2) 0 18
    let (n4, k4) := randn amb k3
    let stlL := clamp (pl.base.stl + n4 * 0.35) 0 3.5
    let (n5, k5) := randn amb k4
    let blkL := clamp (pl.base.blk + n5 * 0.35) 0 4
    let (n6, k6) := randn amb k5
    let perL := clamp (pl.base.per + n6 * 2.5) 5 32
    let scoreL := ptsL * 0.55 + rebL * 0.30 + astL * 0.25 + perL * 0.15
    let (others, k7) := leagueSeason amb k6 rest
    ({ name := pl.name, team := pl.team, pts := ptsL, ast := astL, reb := rebL,
       stl := stlL, blk := blkL, per := perL, score := scoreL,
       isCustom := false } :: others, k7)

/-- The data computed by one iteration of the year loop of
`simulateCareer` (`future.js` 912-1035) other than the award-tally
updates, in source order: year variance, the custom player's noisy stat
line, the league's season lines, leaderboards, MVP, ROY (year 1 only), MIP
(from year 2 only), championship and Finals MVP via team aggregates,
All-Pro as top-15 PER, and the season record; `score` and the final
ambient cursor are returned for the loop state. -/
structure StepData where
  srec : SeasonRec
  allPro : List String
  score : ℚ
  k : ℕ

/-- The season computation of one year-loop iteration (see `StepData`). -/
def seasonData (ctx : CareerCtx) (year : ℕ) (st : LoopSt) : StepData :=
  let curve := careerFactorByYear (year : ℚ) ctx.base.g (ctx.totalYears : ℚ)
  let (nv, k1) := randn ctx.amb st.k
  let yearVariance := clamp (0.95 + nv * 0.06) 0.85 1.1
  let factor := curve * yearVariance
  let games := ctx.schedule.getD (year - 1) 0
  let (n1, k2) := randn ctx.amb k1
  let pts := clamp ((ctx.base.pts + n1 * 1.8) * factor) 0 45
  let (n2, k3) := randn ctx.amb k2
  let ast := clamp ((ctx.base.ast + n2 * 0.7) * factor) 0 15
  let (n3, k4) := randn ctx.amb k3
  let reb := clamp ((ctx.base.reb + n3 * 0.9) * factor) 0 18
  let (n4, k5) := randn ctx.amb k4
  let stl := clamp ((ctx.base.stl + n4 * 0.25) * factor) 0 3.5
  let (n5, k6) := randn ctx.amb k5
  let blk := clamp ((ctx.base.blk + n5 * 0.25) * factor) 0 3.5
  let per := clamp (10 + pts * 0.55 + ast * 0.45 + reb * 0.35 + stl * 1.3 + blk * 1.2) 8 32
  let score := pts * 0.55 + reb * 0.30 + ast * 0.25 + per * 0.15 + stl * 0.4 + blk * 0.4
  let customSP : SeasonPlayer :=
    { name := ctx.customName, team := ctx.customTeam, pts := pts, ast := ast,
      reb := reb, stl := stl, blk := blk, per := per, score := score,
      isCustom := true }
  let (leagueSPs, k7) := leagueSeason ctx.amb k6 ctx.league
  let seasonPlayers := customSP :: leagueSPs
  let boards : Boards :=
    { topPts := (sortDescBy (·.pts) seasonPlayers).take 10,
      topAst := (sortDescBy (·.ast) seasonPlayers).take 10,
      topReb := (sortDescBy (·.reb) seasonPlayers).take 10,
      topPer := (sortDescBy (·.per) seasonPlayers).take 10 }
  let seasonByScore := sortDescBy (·.score) seasonPlayers
  let mvp := seasonByScore.getD 0 dummySeasonPlayer
  let roy := if year = 1 then some (seasonByScore.getD 0 dummySeasonPlayer) else none
  let (mip, k8) :=
    if 1 < year then
      let (entries, kx) := mipImprov ctx.amb k7 seasonPlayers st.lastYearScore
      (mipSelect entries, kx)
    else (none, k7)
  let teamEntries := sortEntriesDesc (teamTotalsOf seasonPlayers)
  let champTeam := (teamEntries.getD 0 ("", 0)).1
  let champCandidates := seasonPlayers.filter (fun pl => pl.team == champTeam)
  let finalsMVP := (sortDescBy (·.score) champCandidates).getD 0 dummySeasonPlayer
  let minScore := (teamEntries.getLastD ("", 0)).2
  let maxScore := (teamEntries.getD 0 ("", 0)).2
  let span := max 1 (maxScore - minScore)
  let teamWins := teamEntries.map (fun e => (e.1, jsRound (20 + (e.2 - minScore) / span * 40)))
  let allPro := ((sortDescBy (·.per) seasonPlayers).take 15).map (·.name)
  { srec :=
      { year := year,
        custom := { name := ctx.customName, pts := pts, ast := ast, reb := reb,
                    stl := stl, blk := blk, per := per, team := ctx.customTeam,
                    wins := (teamWins.lookup ctx.customTeam).getD 0, games := games },
        leaderboards := boards, mvp := mvp, roy := roy, mip := mip,
        champion := champTeam, finalsMVP := finalsMVP },
    allPro := allPro, score := score, k := k8 }

/-- One iteration of the year loop of `simulateCareer` (`future.js`
912-1036): the season data of `seasonData` plus the award-tally updates
(`future.js` 1009-1014) — the six independent guarded `++` statements are
written as one simultaneous record — the new `lastYearScore` and the
appended season record. -/
def seasonStep (ctx : CareerCtx) (year : ℕ) (st : LoopSt) : LoopSt :=
  let d := seasonData ctx year st
  { k := d.k,
    awards :=
      { MVP := st.awards.MVP + (if d.srec.mvp.name == ctx.customName then 1 else 0),
        ROY := st.awards.ROY +
          (match d.srec.roy with
           | some r => if r.name == ctx.customName then 1 else 0
           | none => 0),
        MIP := st.awards.MIP +
          (match d.srec.mip with
           | some m => if m.pl.name == ctx.customName then 1 else 0
           | none => 0),
        AllPro := st.awards.AllPro + (if d.allPro.contains ctx.customName then 1 else 0),
        Champs := st.awards.Champs + (if d.srec.champion == ctx.customTeam then 1 else 0),
        FinalsMVP := st.awards.FinalsMVP +
          (if d.srec.finalsMVP.name == ctx.customName then 1 else 0) },
    lastYearScore := some d.score,
    seasons := st.seasons ++ [d.srec] }

/-- The `for (year = 1; year <= totalYears; year++)` loop (`future.js`
912). -/
def careerLoop (ctx : CareerCtx) : List ℕ → LoopSt → LoopSt
  | [], st => st
  | y :: rest, st => careerLoop ctx rest (seasonStep ctx y st)

/-- `careerScores` (`future.js` 1041-1043): the per-season games-weighted
composite. -/
def careerScoresOf (seasons : List SeasonRec) : List ℚ :=
  seasons.map (fun s =>
    (s.custom.pts * 0.55 + s.custom.reb * 0.30 + s.custom.ast * 0.25 +
      s.custom.per * 0.15) * (s.custom.games : ℚ))

/-- `totalPlayed` before its `|| 1` guard (`future.js` 1044). -/
def totalPlayedOf (seasons : List SeasonRec) : ℕ :=
  (seasons.map (·.custom.games)).sum

/-- `careerAvgScore` (`future.js` 1044-1045), with the `|| 1` guard on the
games total. -/
def careerAvgOf (seasons : List SeasonRec) : ℚ :=
  (careerScoresOf seasons).sum / jsOrQ (totalPlayedOf seasons : ℚ) 1

/-- The Hall-of-Fame decision expression (`future.js` 1046-1050). -/
def hofDecision (a : Awards) (avg : ℚ) : Bool :=
  (decide (1 ≤ a.MVP) && decide ((20 : ℚ) < avg)) ||
  (decide (6 ≤ a.AllPro) && decide ((18 : ℚ) < avg)) ||
  (decide (2 ≤ a.Champs) && decide (3 ≤ a.AllPro) && decide ((17 : ℚ) < avg)) ||
  (decide (4 ≤ a.MVP) && decide (7 ≤ a.AllPro))

/-- The all-zero award tallies (`future.js` 907). -/
def zeroAwards : Awards :=
  { MVP := 0, ROY := 0, MIP := 0, AllPro := 0, Champs := 0, FinalsMVP := 0 }

/-- The pre-loop setup of `simulateCareer` (`future.js` 852-910): teams,
career totals and schedule, era-filtered pool, sampled league, the custom
player's team and adjusted baseline; returns the loop context and the
ambient cursor after the setup draws. -/
def careerSetup (amb : ℕ → ℚ) (k0 : ℕ)
    (leagueSel : List SrcPlayer → List SrcPlayer)
    (eraTeams : Option (List String)) (eraFilter : String)
    (players : List SrcPlayer) (customName customPosition : String)
    (peak : Baseline) (teamOverride : Option String) : CareerCtx × ℕ :=
  let teams := pickTeamsForEra eraTeams
  let totalYears := totalYearsOf peak.g
  let gamesBySeason := gamesScheduleOf peak.g
  let pool := players.filter (inEra eraFilter)
  let (league, k1) := mkLeague amb teams ((leagueSel pool).take 150) k0
  let (customTeam, k2) :=
    match teamOverride with
    | some t =>
      if teams.contains t then (t, k1)
      else (teams.getD ((⌊amb k1 * (teams.length : ℚ)⌋).toNat) "", k1 + 1)
    | none => (teams.getD ((⌊amb k1 * (teams.length : ℚ)⌋).toNat) "", k1 + 1)
  let posAdj := positionAdjustments customPosition
  let base : Baseline :=
    { pts := peak.pts + posAdj.pts, ast := peak.ast + posAdj.ast,
      reb := peak.reb + posAdj.reb, stl := peak.stl + posAdj.stl,
      blk := peak.blk + posAdj.blk, g := peak.g, ath := peak.ath,
      height := peak.height }
  ({ amb := amb, league := league, customName := customName,
     customTeam := customTeam, base := base, totalYears := totalYears,
     schedule := gamesBySeason }, k2)

/-- `simulateCareer(customName, customPosition, peak, teamOverride)`
(`future.js` 852-1071).  Page globals are parameters: `eraFilter` and the
`players` pool, the `teamsByEra[eraFilter]` lookup (`eraTeams`).  Ambient
`Math.random()` is the stream `amb` with starting cursor `k0`; the
random-comparator pool shuffle `pool.sort(() => 0.5 - Math.random())`
(whose result ECMA leaves implementation-defined) is the oracle
`leagueSel`.  `teamOverride = none` is the source's `null` default. -/
def simulateCareer (amb : ℕ → ℚ) (k0 : ℕ)
    (leagueSel : List SrcPlayer → List SrcPlayer)
    (eraTeams : Option (List String)) (eraFilter : String)
    (players : List SrcPlayer) (customName customPosition : String)
    (peak : Baseline) (teamOverride : Option String) : CareerResult :=
  let (ctx, k2) := careerSetup amb k0 leagueSel eraTeams eraFilter players
    customName customPosition peak teamOverride
  let final := careerLoop ctx (List.range' 1 ctx.totalYears)
    { k := k2, awards := zeroAwards, lastYearScore := none, seasons := [] }
  { seasons := final.seasons, awards := final.awards,
    hof := hofDecision final.awards (careerAvgOf final.seasons),
    customName := customName, totalGames := totalGamesOf peak.g,
    totalYears := totalYearsOf peak.g }

end Future

/-!  Spec-side formulas and concrete instances used by the claim theorems.  -/

/-- The career-length formula exactly as the specification words it
(`clamp(round(G/82) || 1, 1, 20)` over the games total `G`): a second,
spec-side definition, to be compared with the source-derived
`Future.totalYearsOf`. -/
def specTotalYears (G : ℕ) : ℕ :=
  let r := jsRound ((G : ℚ) / 82)
  min 20 (max 1 (if r = 0 then 1 else r.toNat))

/-- The athleticism formula exactly as the claim words it (no zero-input
guards on the bonus terms): a second, spec-side definition, to be compared
with the source-derived `Future.computeAthleticism`. -/
def athClaimFormula (i : Future.AthInput) : ℚ :=
  if i.per = 0 then 0
  else
    let perNorm := clamp ((i.per - 15) / 10) (-1.5) 1.5
    let fgPct := if 1 < i.fg then i.fg / 100 else i.fg
    let fgBonus := (fgPct - 0.45) * 4
    let rebBonus := min (i.reb / 10) 1.2
    let durability := min (i.g / 1200) 1.0
    let heightBonus := (i.height - 78) / 12
    0.45 * perNorm + 0.20 * fgBonus + 0.20 * rebBonus +
      0.10 * durability + 0.05 * heightBonus

/-- The athleticism formula as amended by the counterexample: a bonus term
whose input stat is zero/falsy contributes 0 (`fg` enters through `fgPct`,
which is also zeroed on a zero `fg`). -/
def athAmendedFormula (i : Future.AthInput) : ℚ :=
  if i.per = 0 then 0
  else
    let perNorm := clamp ((i.per - 15) / 10) (-1.5) 1.5
    let fgPct := if i.fg = 0 then 0 else if 1 < i.fg then i.fg / 100 else i.fg
    let fgBonus := if fgPct = 0 then 0 else (fgPct - 0.45) * 4
    let rebBonus := if i.reb = 0 then 0 else min (i.reb / 10) 1.2
    let durability := if i.g = 0 then 0 else min (i.g / 1200) 1.0
    let heightBonus := if i.height = 0 then 0 else (i.height - 78) / 12
    0.45 * perNorm + 0.20 * fgBonus + 0.20 * rebBonus +
      0.10 * durability + 0.05 * heightBonus

/-- Witness entity: a zero-stat player named Alice (solo base score 100). -/
def c2A : Script.Entity :=
  { name := "Alice", pts := 0, ast := 0, reb := 0, per := 0, fg := 0, stl := 0,
    blk := 0, impact := 0, g := 0, players := [] }

/-- Witness entity: a zero-stat player named Eve (solo base score 100);
the seed of the pair (Alice, Eve) makes both rounded scores 97. -/
def c2B : Script.Entity :=
  { name := "Eve", pts := 0, ast := 0, reb := 0, per := 0, fg := 0, stl := 0,
    blk := 0, impact := 0, g := 0, players := [] }

/-- Ambient stream for the C7 counterexample run: draws of 0.99 for the
first season's noises, 0 afterwards (all values legal `Math.random()`
outputs in `[0,1)`). -/
def c7amb : ℕ → ℚ := fun k => if k < 24 then 99 / 100 else 0

/-- Baseline for the C7 counterexample run: a 20-ppg scorer with 164
longevity games, giving a 2-season career. -/
def c7peak : Future.Baseline :=
  { pts := 20, ast := 0, reb := 0, stl := 0, blk := 0, g := 164, ath := 0,
    height := 72 }

/-- The C7 counterexample career: empty historical pool (hence no
background league), fixed team, high year-1 noise and low year-2 noise, so
the custom player's composite score declines from season 1 to season 2. -/
def c7run : Future.CareerResult :=
  Future.simulateCareer c7amb 0 (fun _ => []) none "all" [] "Test" "forward"
    c7peak (some "Lakers")

/-- Unreachable default season record for indexed access in the C7
counterexample statement. -/
def dummySeasonRec : Future.SeasonRec :=
  { year := 0,
    custom := { name := "", pts := 0, ast := 0, reb := 0, stl := 0, blk := 0,
                per := 0, team := "", wins := 0, games := 0 },
    leaderboards := { topPts := [], topAst := [], topReb := [], topPer := [] },
    mvp := Future.dummySeasonPlayer, roy := none, mip := none, champion := "",
    finalsMVP := Future.dummySeasonPlayer }

/-- Witness season participant for the MIP-selection theorem. -/
def c7sp : Future.SeasonPlayer :=
  { name := "W", team := "Lakers", pts := 10, ast := 1, reb := 2, stl := 0,
    blk := 0, per := 15, score := 9, isCustom := true }

/-!  Claim theorems.  -/

/-- Claim C1: for every pair of entities with fixed names and stat
vectors, calling `simulateGameStory` twice with identical inputs yields
identical results (final scores and narrative lines): the embedding
exposes the ambient `Math.random()` stream and the call position, and the
result is independent of both, because all per-match randomness is drawn
from the xorshift32 generator seeded by the FNV-1a-style hash of the two
names. -/
theorem claim_C1_matchup_determinism :
    ∀ (mr₁ mr₂ : ℕ → ℚ) (k₁ k₂ : ℕ) (a b : Script.Entity)
      (detail : String) (isTeam : Bool),
      Script.simulateGameStory mr₁ k₁ a b detail isTeam =
        Script.simulateGameStory mr₂ k₂ a b detail isTeam :=
  fun _ _ _ _ _ _ _ _ => rfl

/-- Case analysis of the tie-break expression (helper for the C2
theorem). -/
theorem tiebreak_split (bA bB : ℚ) (rA rB : ℤ) :
    (if rA = rB then (if bA ≥ bB then (rA + 1, rB) else (rA, rB + 1))
      else (rA, rB)).1 ≠
    (if rA = rB then (if bA ≥ bB then (rA + 1, rB) else (rA, rB + 1))
      else (rA, rB)).2
    ∧ (rA = rB →
      (bA ≥ bB →
        (if rA = rB then (if bA ≥ bB then (rA + 1, rB) else (rA, rB + 1))
          else (rA, rB)).1 = rA + 1 ∧
        (if rA = rB then (if bA ≥ bB then (rA + 1, rB) else (rA, rB + 1))
          else (rA, rB)).2 = rB)
      ∧ (¬ bA ≥ bB →
        (if rA = rB then (if bA ≥ bB then (rA + 1, rB) else (rA, rB + 1))
          else (rA, rB)).2 = rB + 1 ∧
        (if rA = rB then (if bA ≥ bB then (rA + 1, rB) else (rA, rB + 1))
          else (rA, rB)).1 = rA)) := by
  split_ifs with h1 h2 <;> refine ⟨?_, ?_⟩ <;> simp_all

/-- Claim C2: in `simulateGameStory`, whenever the two post-variance
rounded scores are equal, the side whose pre-variance base score is
greater than or equal to the other's has its score incremented by exactly
1; consequently the returned final scores are never equal, and on a tie
the statistically stronger side wins by exactly a 1-point margin. -/
theorem claim_C2_tiebreak (mr : ℕ → ℚ) (mk : ℕ) (a b : Script.Entity)
    (detail : String) (isTeam : Bool) :
    (Script.simulateGameStory mr mk a b detail isTeam).scoreA ≠
      (Script.simulateGameStory mr mk a b detail isTeam).scoreB
    ∧ ((Script.storyRawScores a b isTeam).1 = (Script.storyRawScores a b isTeam).2 →
        (Script.scoreFromStats a isTeam ≥ Script.scoreFromStats b isTeam →
          (Script.simulateGameStory mr mk a b detail isTeam).scoreA =
            (Script.storyRawScores a b isTeam).1 + 1 ∧
          (Script.simulateGameStory mr mk a b detail isTeam).scoreB =
            (Script.storyRawScores a b isTeam).2)
        ∧ (¬ Script.scoreFromStats a isTeam ≥ Script.scoreFromStats b isTeam →
          (Script.simulateGameStory mr mk a b detail isTeam).scoreB =
            (Script.storyRawScores a b isTeam).2 + 1 ∧
          (Script.simulateGameStory mr mk a b detail isTeam).scoreA =
            (Script.storyRawScores a b isTeam).1)) := by
  have hA : (Script.simulateGameStory mr mk a b detail isTeam).scoreA =
      (if (Script.storyRawScores a b isTeam).1 = (Script.storyRawScores a b isTeam).2 then
        (if Script.scoreFromStats a isTeam ≥ Script.scoreFromStats b isTeam then
          ((Script.storyRawScores a b isTeam).1 + 1, (Script.storyRawScores a b isTeam).2)
        else ((Script.storyRawScores a b isTeam).1, (Script.storyRawScores a b isTeam).2 + 1))
      else ((Script.storyRawScores a b isTeam).1, (Script.storyRawScores a b isTeam).2)).1 := rfl
  have hB : (Script.simulateGameStory mr mk a b detail isTeam).scoreB =
      (if (Script.storyRawScores a b isTeam).1 = (Script.storyRawScores a b isTeam).2 then
        (if Script.scoreFromStats a isTeam ≥ Script.scoreFromStats b isTeam then
          ((Script.storyRawScores a b isTeam).1 + 1, (Script.storyRawScores a b isTeam).2)
        else ((Script.storyRawScores a b isTeam).1, (Script.storyRawScores a b isTeam).2 + 1))
      else ((Script.storyRawScores a b isTeam).1, (Script.storyRawScores a b isTeam).2)).2 := rfl
  rw [hA, hB]
  exact tiebreak_split (Script.scoreFromStats a isTeam) (Script.scoreFromStats b isTeam)
    (Script.storyRawScores a b isTeam).1 (Script.storyRawScores a b isTeam).2

/-- Witness for C2 at a concrete tie: zero-stat Alice vs zero-stat Eve
produce equal rounded scores (97), equal base scores (100), and Alice's
final score is bumped to 98. -/
theorem claim_C2_tiebreak_witness :
    (Script.storyRawScores c2A c2B false).1 = (Script.storyRawScores c2A c2B false).2
    ∧ Script.scoreFromStats c2A false ≥ Script.scoreFromStats c2B false
    ∧ (Script.simulateGameStory (fun _ => 0) 0 c2A c2B "light" false).scoreA =
        (Script.storyRawScores c2A c2B false).1 + 1
    ∧ (Script.simulateGameStory (fun _ => 0) 0 c2A c2B "light" false).scoreB =
        (Script.storyRawScores c2A c2B false).2 := by
  refine ⟨by with_unfolding_all decide, by with_unfolding_all decide, ?_, ?_⟩
  · exact (((claim_C2_tiebreak (fun _ => 0) 0 c2A c2B "light" false).2
      (by with_unfolding_all decide)).1 (by with_unfolding_all decide)).1
  · exact (((claim_C2_tiebreak (fun _ => 0) 0 c2A c2B "light" false).2
      (by with_unfolding_all decide)).1 (by with_unfolding_all decide)).2

/-- Claim C8: with fewer than 2 participants, `simulateMatchup` rejects
the request before any simulation begins, returning the human-readable
reason string (not a thrown fault and not a match transcript). -/
theorem claim_C8_matchup_validation (amb : ℕ → ℚ) (k : ℕ)
    (shuf : List Script.Entrant → List Script.Entrant)
    (ps : List Script.Participant) (gameMode detail : String)
    (h : ps.length < 2) :
    Script.simulateMatchup amb k shuf ps gameMode detail =
      "Need at least 2 participants to simulate a matchup." := by
  unfold Script.simulateMatchup
  rw [if_pos h]

/-- Witness for C8: the empty participant list is rejected with the
reason string. -/
theorem claim_C8_matchup_validation_witness :
    ([] : List Script.Participant).length < 2 ∧
    Script.simulateMatchup (fun _ => 0) 0 id [] "attribute" "light" =
      "Need at least 2 participants to simulate a matchup." :=
  ⟨by decide, claim_C8_matchup_validation (fun _ => 0) 0 id [] "attribute" "light" (by decide)⟩

/-- `gNorm` is nonnegative (helper). -/
theorem gNorm_nonneg (g : ℚ) : 0 ≤ Future.gNormOf g := le_max_left 0 _

/-- `peakStart` is at least 2 (helper). -/
theorem two_le_peakStart (g : ℚ) : (2 : ℤ) ≤ Future.peakStartOf g := by
  unfold Future.peakStartOf jsRound
  refine Int.le_floor.mpr ?_
  have h0 : 0 ≤ Future.gNormOf g := gNorm_nonneg g
  push_cast
  linarith

/-- `peakEnd` is an integer: the minimum of the two integral bounds
(helper). -/
theorem peakEnd_eq_int_cast (g : ℚ) (ty : ℕ) :
    Future.peakEndOf g (ty : ℚ) =
      ((min (ty : ℤ) (Future.peakStartOf g + Future.peakLengthOf g - 1) : ℤ) : ℚ) := by
  unfold Future.peakEndOf
  push_cast
  rfl

/-- Counterexample to claim C4 as stated: at `longevityGames = 300`
(so `gNorm = 0`, `peakStart = peakEnd = 2`) and `totalYears = 10`, the
peak segment ends at value 1 while the decline segment starts from
`peakCeil = 1.08`: the curve jumps by more than 0.07 across the boundary
`peakEnd`, a discontinuity far beyond floating-point tolerance. -/
theorem claim_C4_counterexample :
    Future.peakStartOf 300 = 2 ∧ Future.peakEndOf 300 10 = 2 ∧
    Future.peakSegment 300 10 2 = 1 ∧ Future.peakCeilOf 300 = 108 / 100 ∧
    Future.careerFactorByYear 2 300 10 = 1 ∧
    Future.careerFactorByYear (2 + 1 / 1000) 300 10 -
      Future.careerFactorByYear 2 300 10 > 7 / 100 := by
  with_unfolding_all decide

/-- Claim C4 as amended: the rise segment always meets the peak segment at
value 1.0 at `peakStart`; the peak segment meets the decline segment at
value `peakCeil` at `peakEnd` whenever the peak segment is non-degenerate
(`peakStart < peakEnd`); in the degenerate case `peakEnd ≤ peakStart`
(longevity below 500 games, or a career too short to reach the peak) the
curve has a jump of `peakCeil - 1` at `peakEnd`, as the counterexample
shows. -/
theorem claim_C4_curve_boundaries (g : ℚ) (ty : ℕ) :
    Future.riseSegment g (Future.peakStartOf g : ℚ) = 1 ∧
    Future.peakSegment g (ty : ℚ) (Future.peakStartOf g : ℚ) = 1 ∧
    ((Future.peakStartOf g : ℚ) < Future.peakEndOf g (ty : ℚ) →
      Future.peakSegment g (ty : ℚ) (Future.peakEndOf g (ty : ℚ)) =
        Future.peakCeilOf g ∧
      Future.declineSegment g (ty : ℚ) (Future.peakEndOf g (ty : ℚ)) =
        Future.peakCeilOf g) := by
  have hps : (2 : ℚ) ≤ (Future.peakStartOf g : ℚ) := by
    exact_mod_cast two_le_peakStart g
  refine ⟨?_, ?_, fun hlt => ⟨?_, ?_⟩⟩
  · unfold Future.riseSegment
    have h1 : (1 : ℚ) ≤ (Future.peakStartOf g : ℚ) - 1 := by linarith
    rw [max_eq_right h1, div_self (by linarith)]
    ring
  · unfold Future.peakSegment
    simp
    norm_num
  · unfold Future.peakSegment
    have hint : (Future.peakStartOf g : ℚ) + 1 ≤ Future.peakEndOf g (ty : ℚ) := by
      rw [peakEnd_eq_int_cast] at hlt ⊢
      have h' : Future.peakStartOf g <
          min (ty : ℤ) (Future.peakStartOf g + Future.peakLengthOf g - 1) := by
        exact_mod_cast hlt
      exact_mod_cast Int.add_one_le_iff.mpr h'
    have h1 : (1 : ℚ) ≤ Future.peakEndOf g (ty : ℚ) - (Future.peakStartOf g : ℚ) := by
      linarith
    rw [max_eq_right h1, div_self (by linarith)]
    ring
  · unfold Future.declineSegment
    simp

/-- Witness for the amended C4 at `longevityGames = 1500`,
`totalYears = 10`: there `peakStart = 4 < peakEnd = 7` and both boundary
values are `peakCeil = 1.2`. -/
theorem claim_C4_curve_boundaries_witness :
    (Future.peakStartOf 1500 : ℚ) < Future.peakEndOf 1500 ((10 : ℕ) : ℚ) ∧
    Future.peakSegment 1500 ((10 : ℕ) : ℚ) (Future.peakEndOf 1500 ((10 : ℕ) : ℚ)) =
      Future.peakCeilOf 1500 ∧
    Future.declineSegment 1500 ((10 : ℕ) : ℚ) (Future.peakEndOf 1500 ((10 : ℕ) : ℚ)) =
      Future.peakCeilOf 1500 := by
  have h := (claim_C4_curve_boundaries 1500 10).2.2 (by with_unfolding_all decide)
  exact ⟨by with_unfolding_all decide, h.1, h.2⟩

/-- Counterexample to claim C6 as stated: at `per = 20` with
`fg = reb = g = height = 0`, the code returns `0.225` (the zero inputs
contribute nothing), while the claim's unguarded formula would return
`-0.46` (fgBonus `-1.8` and heightBonus `-6.5` from the zero inputs). -/
theorem claim_C6_counterexample :
    Future.computeAthleticism { per := 20, fg := 0, reb := 0, g := 0, height := 0 } = 9 / 40 ∧
    athClaimFormula { per := 20, fg := 0, reb := 0, g := 0, height := 0 } = -23 / 50 ∧
    Future.computeAthleticism { per := 20, fg := 0, reb := 0, g := 0, height := 0 } ≠
      athClaimFormula { per := 20, fg := 0, reb := 0, g := 0, height := 0 } := by
  with_unfolding_all decide

/-- `Math.min(Math.max(x, -1.5), 1.5)` is the clamp of `x` to
`[-1.5, 1.5]` (helper). -/
theorem min_max_clamp (x : ℚ) :
    min (max x (-1.5)) 1.5 = clamp x (-1.5) 1.5 := by
  unfold clamp
  rcases le_total x (-1.5) with h | h
  · rw [max_eq_right h, min_eq_left (by norm_num : (-1.5 : ℚ) ≤ 1.5),
      min_eq_right (le_trans h (by norm_num)), max_eq_left h]
  · rcases le_total x 1.5 with h2 | h2
    · rw [max_eq_left h, min_eq_left h2, min_eq_right h2, max_eq_right h]
    · rw [max_eq_left h, min_eq_right h2, min_eq_left h2,
        max_eq_right (by norm_num : (-1.5 : ℚ) ≤ 1.5)]

/-- Claim C6 as amended: `computeAthleticism` returns 0 on falsy/zero PER,
and otherwise the weighted formula in which each bonus term is zeroed when
its input stat is zero/falsy (the source's `x ? ... : 0` guards): the
unguarded formula of the claim disagrees at zero `fg` or zero `height`, as
the counterexample shows. -/
theorem claim_C6_athleticism (i : Future.AthInput) :
    Future.computeAthleticism i = athAmendedFormula i := by
  by_cases hper : i.per = 0
  · simp [Future.computeAthleticism, athAmendedFormula, hper]
  · simp only [Future.computeAthleticism, athAmendedFormula, hper, if_false]
    rw [min_max_clamp ((i.per - 15) / 10)]

/-- The source's `totalYears` computation agrees with the spec's
`clamp(round(G/82) || 1, 1, 20)` formula for every longevity value
(helper). -/
theorem totalYearsOf_eq_spec (g : ℚ) :
    Future.totalYearsOf g = specTotalYears (Future.totalGamesOf g) := by
  unfold Future.totalYearsOf specTotalYears clampZ jsOrZ
  have h0 : 0 ≤ jsRound ((Future.totalGamesOf g : ℚ) / 82) := by
    unfold jsRound
    refine Int.le_floor.mpr ?_
    push_cast
    positivity
  by_cases hR : jsRound ((Future.totalGamesOf g : ℚ) / 82) = 0
  · rw [hR]
    decide
  · simp only [if_neg hR]
    omega

/-- Claim C3: for every baseline, the simulated career length equals
`clamp(round(G/82) || 1, 1, 20)` over the games total `G` (longevity games
rounded to the nearest integer and floored at 0); in particular `G = 820`
gives 10 years and `G = 0` still gives exactly one season. -/
theorem claim_C3_career_length :
    (∀ (amb : ℕ → ℚ) (k0 : ℕ) (leagueSel : List SrcPlayer → List SrcPlayer)
      (eraTeams : Option (List String)) (eraFilter : String)
      (players : List SrcPlayer) (customName customPosition : String)
      (peak : Future.Baseline) (teamOverride : Option String),
      (Future.simulateCareer amb k0 leagueSel eraTeams eraFilter players
        customName customPosition peak teamOverride).totalYears =
        specTotalYears (Future.totalGamesOf peak.g)) ∧
    specTotalYears (Future.totalGamesOf 820) = 10 ∧
    specTotalYears (Future.totalGamesOf 0) = 1 ∧
    Future.totalYearsOf 820 = 10 ∧ Future.totalYearsOf 0 = 1 := by
  refine ⟨fun amb k0 sel et ef pl cn cp peak tov => ?_, ?_, ?_, ?_, ?_⟩
  · show Future.totalYearsOf peak.g = _
    exact totalYearsOf_eq_spec peak.g
  all_goals with_unfolding_all decide

/-- Claim C5: for every simulated career, the Hall-of-Fame flag equals
the four-clause decision over the final award tallies and the
games-weighted career average composite score, the decision holds iff one
of the four claimed clauses holds, and in particular one MVP with average
25 (and no other awards) is in, while one MVP with average 15 is out. -/
theorem claim_C5_hof_iff :
    (∀ (amb : ℕ → ℚ) (k0 : ℕ) (leagueSel : List SrcPlayer → List SrcPlayer)
      (eraTeams : Option (List String)) (eraFilter : String)
      (players : List SrcPlayer) (customName customPosition : String)
      (peak : Future.Baseline) (teamOverride : Option String),
      (Future.simulateCareer amb k0 leagueSel eraTeams eraFilter players
        customName customPosition peak teamOverride).hof =
        Future.hofDecision
          (Future.simulateCareer amb k0 leagueSel eraTeams eraFilter players
            customName customPosition peak teamOverride).awards
          (Future.careerAvgOf
            (Future.simulateCareer amb k0 leagueSel eraTeams eraFilter players
              customName customPosition peak teamOverride).seasons)) ∧
    (∀ (a : Future.Awards) (c : ℚ),
      Future.hofDecision a c = true ↔
        ((1 ≤ a.MVP ∧ 20 < c) ∨ (6 ≤ a.AllPro ∧ 18 < c) ∨
         (2 ≤ a.Champs ∧ 3 ≤ a.AllPro ∧ 17 < c) ∨
         (4 ≤ a.MVP ∧ 7 ≤ a.AllPro))) ∧
    Future.hofDecision ⟨1, 0, 0, 0, 0, 0⟩ 25 = true ∧
    Future.hofDecision ⟨1, 0, 0, 0, 0, 0⟩ 15 = false := by
  refine ⟨fun _ _ _ _ _ _ _ _ _ _ => rfl, fun a c => ?_, ?_, ?_⟩
  · unfold Future.hofDecision
    simp only [Bool.or_eq_true, Bool.and_eq_true, decide_eq_true_eq]
    tauto
  · with_unfolding_all decide
  · with_unfolding_all decide

/-- The schedule shape: mapping `b + (i < r ? 1 : 0)` over `range n` gives
`r` seasons of `b+1` games followed by `n - r` seasons of `b` games
(helper). -/
theorem schedule_split (n r b : ℕ) (h : r ≤ n) :
    (List.range n).map (fun i => b + if i < r then 1 else 0) =
      List.replicate r (b + 1) ++ List.replicate (n - r) b := by
  induction n with
  | zero =>
    have hr : r = 0 := by omega
    simp [hr]
  | succ n ih =>
    rcases Nat.lt_or_ge r (n + 1) with hr | hr
    · have hrn : r ≤ n := by omega
      rw [List.range_succ, List.map_append, ih hrn]
      have hn : (fun i => b + if i < r then 1 else 0) n = b := by
        simp only []
        rw [if_neg (by omega)]
        omega
      simp only [List.map_cons, List.map_nil, hn, List.append_assoc]
      rw [← List.replicate_succ' (n - r) b]
      have : n - r + 1 = n + 1 - r := by omega
      rw [this]
    · have hr1 : r = n + 1 := by omega
      subst hr1
      rw [Nat.sub_self, List.replicate, List.append_nil]
      have : ∀ i ∈ List.range (n + 1), (fun i => b + if i < n + 1 then 1 else 0) i = b + 1 := by
        intro i hi
        simp only []
        rw [if_pos (by simpa using List.mem_range.mp hi)]
      rw [List.map_congr_left this, List.map_const', List.length_range]

/-- The career length is at least one season (helper). -/
theorem totalYearsOf_pos (g : ℚ) : 1 ≤ Future.totalYearsOf g := by
  unfold Future.totalYearsOf clampZ
  omega

/-- The remainder of the schedule is the games total modulo the career
length (helper). -/
theorem remainderGamesOf_lt (g : ℚ) :
    Future.remainderGamesOf g < Future.totalYearsOf g ∧
    Future.remainderGamesOf g =
      Future.totalGamesOf g % Future.totalYearsOf g := by
  have h1 := totalYearsOf_pos g
  have hdm : Future.totalGamesOf g / Future.totalYearsOf g * Future.totalYearsOf g +
      Future.totalGamesOf g % Future.totalYearsOf g = Future.totalGamesOf g := by
    rw [Nat.mul_comm]
    exact Nat.div_add_mod _ _
  have h3 : Future.totalGamesOf g % Future.totalYearsOf g < Future.totalYearsOf g :=
    Nat.mod_lt _ (by omega)
  unfold Future.remainderGamesOf Future.baseGamesOf
  omega

/-- Mapping positional `getD` over the index range recovers the list
(helper). -/
theorem map_getD_range : ∀ (l : List ℕ),
    (List.range l.length).map (fun i => l.getD i 0) = l
  | [] => by simp
  | a :: t => by
    rw [List.length_cons, List.range_succ_eq_map, List.map_cons, List.map_map]
    have hcomp : ((fun i => (a :: t).getD i 0) ∘ Nat.succ) = fun i => t.getD i 0 := by
      funext i
      simp
    rw [List.getD_cons_zero, hcomp, map_getD_range t]

/-- One season appends one record whose `games` entry is the schedule
entry of its year (helper, definitionally from `seasonStep`). -/
theorem seasonStep_seasons (ctx : Future.CareerCtx) (y : ℕ) (st : Future.LoopSt) :
    (Future.seasonStep ctx y st).seasons =
      st.seasons ++ [(Future.seasonData ctx y st).srec] := rfl

/-- The games field of a season record (helper, definitional). -/
theorem seasonData_games (ctx : Future.CareerCtx) (y : ℕ) (st : Future.LoopSt) :
    (Future.seasonData ctx y st).srec.custom.games = ctx.schedule.getD (y - 1) 0 := rfl

/-- The year field of a season record (helper, definitional). -/
theorem seasonData_year (ctx : Future.CareerCtx) (y : ℕ) (st : Future.LoopSt) :
    (Future.seasonData ctx y st).srec.year = y := rfl

/-- The games entries produced by the year loop are exactly the schedule
entries of the processed years (helper). -/
theorem careerLoop_games (ctx : Future.CareerCtx) :
    ∀ (years : List ℕ) (st : Future.LoopSt),
      (Future.careerLoop ctx years st).seasons.map (fun s => s.custom.games) =
        st.seasons.map (fun s => s.custom.games) ++
          years.map (fun y => ctx.schedule.getD (y - 1) 0)
  | [], st => by simp [Future.careerLoop]
  | y :: rest, st => by
    show (Future.careerLoop ctx rest (Future.seasonStep ctx y st)).seasons.map _ = _
    rw [careerLoop_games ctx rest (Future.seasonStep ctx y st),
      seasonStep_seasons, List.map_append]
    simp only [List.map_cons, List.map_nil, seasonData_games, List.append_assoc,
      List.map_cons]
    rfl

/-- Over a full career starting from the empty season list, the per-season
games are exactly the schedule (helper). -/
theorem careerLoop_games_full (ctx : Future.CareerCtx) (st : Future.LoopSt)
    (h0 : st.seasons = []) (hlen : ctx.schedule.length = ctx.totalYears) :
    (Future.careerLoop ctx (List.range' 1 ctx.totalYears) st).seasons.map
      (fun s => s.custom.games) = ctx.schedule := by
  rw [careerLoop_games ctx (List.range' 1 ctx.totalYears) st, h0]
  rw [List.range'_eq_map_range, List.map_map]
  have : ((fun y => ctx.schedule.getD (y - 1) 0) ∘ (1 + ·)) = fun i => ctx.schedule.getD i 0 := by
    funext i
    simp [Function.comp, Nat.add_sub_cancel_left]
  rw [this]
  rw [← hlen, map_getD_range]
  simp

/-- Claim C9: the per-season games schedule partitions the total games
exactly: there are `totalYears` seasons, the first
`totalGames mod totalYears` get `baseGames + 1` games and the rest get
`baseGames`, the entries sum to `totalGames`, and the seasons produced by
`simulateCareer` carry exactly these games entries. -/
theorem claim_C9_schedule_partition :
    (∀ g : ℚ,
      (Future.gamesScheduleOf g).length = Future.totalYearsOf g ∧
      Future.gamesScheduleOf g =
        List.replicate (Future.remainderGamesOf g) (Future.baseGamesOf g + 1) ++
          List.replicate (Future.totalYearsOf g - Future.remainderGamesOf g)
            (Future.baseGamesOf g) ∧
      (Future.gamesScheduleOf g).sum = Future.totalGamesOf g) ∧
    (∀ (amb : ℕ → ℚ) (k0 : ℕ) (leagueSel : List SrcPlayer → List SrcPlayer)
      (eraTeams : Option (List String)) (eraFilter : String)
      (players : List SrcPlayer) (customName customPosition : String)
      (peak : Future.Baseline) (teamOverride : Option String),
      (Future.simulateCareer amb k0 leagueSel eraTeams eraFilter players
        customName customPosition peak teamOverride).seasons.map
          (fun s => s.custom.games) = Future.gamesScheduleOf peak.g) := by
  have core : ∀ g : ℚ,
      (Future.gamesScheduleOf g).length = Future.totalYearsOf g ∧
      Future.gamesScheduleOf g =
        List.replicate (Future.remainderGamesOf g) (Future.baseGamesOf g + 1) ++
          List.replicate (Future.totalYearsOf g - Future.remainderGamesOf g)
            (Future.baseGamesOf g) ∧
      (Future.gamesScheduleOf g).sum = Future.totalGamesOf g := by
    intro g
    obtain ⟨hlt, hmod⟩ := remainderGamesOf_lt g
    have hsplit := schedule_split (Future.totalYearsOf g) (Future.remainderGamesOf g)
      (Future.baseGamesOf g) (le_of_lt hlt)
    refine ⟨by simp [Future.gamesScheduleOf], ?_, ?_⟩
    · unfold Future.gamesScheduleOf
      exact hsplit
    · unfold Future.gamesScheduleOf
      rw [hsplit]
      simp only [List.sum_append, List.sum_replicate, smul_eq_mul]
      rw [hmod]
      have hb : Future.baseGamesOf g = Future.totalGamesOf g / Future.totalYearsOf g := rfl
      rw [hb, Nat.sub_mul, Nat.mul_succ]
      have hdm := Nat.div_add_mod (Future.totalGamesOf g) (Future.totalYearsOf g)
      have hle : Future.totalGamesOf g % Future.totalYearsOf g ≤ Future.totalYearsOf g := by
        rw [← hmod]
        exact le_of_lt hlt
      have h5 : Future.totalGamesOf g % Future.totalYearsOf g *
            (Future.totalGamesOf g / Future.totalYearsOf g) ≤
          Future.totalYearsOf g * (Future.totalGamesOf g / Future.totalYearsOf g) :=
        Nat.mul_le_mul_right _ hle
      omega
  refine ⟨core, fun amb k0 sel et ef pl cn cp peak tov => ?_⟩
  exact careerLoop_games_full _ _ rfl
    (by
      show (Future.gamesScheduleOf peak.g).length = Future.totalYearsOf peak.g
      exact (core peak.g).1)

/-- ROY is only ever set in year 1 (helper, definitional gate). -/
theorem seasonData_roy_ne_one (ctx : Future.CareerCtx) (y : ℕ) (st : Future.LoopSt)
    (h : y ≠ 1) : (Future.seasonData ctx y st).srec.roy = none := by
  change (if y = 1 then _ else none) = none
  rw [if_neg h]

/-- The ROY tally update of one season step (helper, definitional). -/
theorem seasonStep_ROY (ctx : Future.CareerCtx) (y : ℕ) (st : Future.LoopSt) :
    (Future.seasonStep ctx y st).awards.ROY = st.awards.ROY +
      (match (Future.seasonData ctx y st).srec.roy with
       | some r => if r.name == ctx.customName then 1 else 0
       | none => 0) := rfl

/-- A non-rookie season leaves the ROY tally unchanged (helper). -/
theorem seasonStep_ROY_ne_one (ctx : Future.CareerCtx) (y : ℕ) (st : Future.LoopSt)
    (h : y ≠ 1) : (Future.seasonStep ctx y st).awards.ROY = st.awards.ROY := by
  rw [seasonStep_ROY, seasonData_roy_ne_one ctx y st h]
  rfl

/-- Processing only non-rookie years changes neither the ROY tally nor the
"ROY null outside year 1" season invariant (helper). -/
theorem careerLoop_roy_aux (ctx : Future.CareerCtx) :
    ∀ (years : List ℕ) (st : Future.LoopSt), (∀ y ∈ years, y ≠ 1) →
      (Future.careerLoop ctx years st).awards.ROY = st.awards.ROY ∧
      (Future.careerLoop ctx years st).seasons.all
          (fun s => decide (s.year = 1) || s.roy.isNone) =
        st.seasons.all (fun s => decide (s.year = 1) || s.roy.isNone)
  | [], st, _ => ⟨rfl, rfl⟩
  | y :: rest, st, h => by
    have hy : y ≠ 1 := h y (List.mem_cons_self y rest)
    have hrest : ∀ z ∈ rest, z ≠ 1 := fun z hz => h z (List.mem_cons_of_mem y hz)
    obtain ⟨ih1, ih2⟩ := careerLoop_roy_aux ctx rest (Future.seasonStep ctx y st) hrest
    constructor
    · show (Future.careerLoop ctx rest (Future.seasonStep ctx y st)).awards.ROY = _
      rw [ih1, seasonStep_ROY_ne_one ctx y st hy]
    · show (Future.careerLoop ctx rest (Future.seasonStep ctx y st)).seasons.all _ = _
      rw [ih2, seasonStep_seasons, List.all_append]
      have hnone : (Future.seasonData ctx y st).srec.roy.isNone = true := by
        rw [seasonData_roy_ne_one ctx y st hy]
        rfl
      simp [hnone]

/-- Over a full career (years `1..ty`) from a clean initial state, every
season outside year 1 carries no ROY award and the final ROY tally is at
most 1 (helper). -/
theorem careerLoop_roy_full (ctx : Future.CareerCtx) (ty : ℕ) (hty : 1 ≤ ty)
    (st : Future.LoopSt) (hs : st.seasons = []) (ha : st.awards.ROY = 0) :
    (Future.careerLoop ctx (List.range' 1 ty) st).seasons.all
        (fun s => decide (s.year = 1) || s.roy.isNone) = true ∧
    (Future.careerLoop ctx (List.range' 1 ty) st).awards.ROY ≤ 1 := by
  obtain ⟨m, hm⟩ : ∃ m, ty = m + 1 := ⟨ty - 1, by omega⟩
  subst hm
  rw [List.range'_succ]
  have hstep : Future.careerLoop ctx (1 :: List.range' 2 m) st =
      Future.careerLoop ctx (List.range' 2 m) (Future.seasonStep ctx 1 st) := rfl
  rw [hstep]
  have hge : ∀ z ∈ List.range' 2 m, z ≠ 1 := by
    intro z hz
    obtain ⟨i, _, rfl⟩ := List.mem_range'.mp hz
    omega
  obtain ⟨h1, h2⟩ := careerLoop_roy_aux ctx (List.range' 2 m) (Future.seasonStep ctx 1 st) hge
  constructor
  · rw [h2, seasonStep_seasons, hs, List.nil_append]
    have hyear : (Future.seasonData ctx 1 st).srec.year = 1 := seasonData_year ctx 1 st
    simp [hyear]
  · rw [h1, seasonStep_ROY, ha]
    cases hroy : (Future.seasonData ctx 1 st).srec.roy with
    | none => simp
    | some r =>
      simp only []
      split
      · omega
      · omega

/-- Claim C10: in every simulated career the ROY award is only computed in
season 1 (it is null in every later season record), so the final ROY tally
is 0 or 1 for any baseline and career length. -/
theorem claim_C10_roy_once (amb : ℕ → ℚ) (k0 : ℕ)
    (leagueSel : List SrcPlayer → List SrcPlayer)
    (eraTeams : Option (List String)) (eraFilter : String)
    (players : List SrcPlayer) (customName customPosition : String)
    (peak : Future.Baseline) (teamOverride : Option String) :
    (Future.simulateCareer amb k0 leagueSel eraTeams eraFilter players
      customName customPosition peak teamOverride).seasons.all
        (fun s => decide (s.year = 1) || s.roy.isNone) = true ∧
    (Future.simulateCareer amb k0 leagueSel eraTeams eraFilter players
      customName customPosition peak teamOverride).awards.ROY ≤ 1 :=
  careerLoop_roy_full _ _ (totalYearsOf_pos peak.g) _ rfl rfl

/-- The improvement list of a nonempty participant list is nonempty
(helper). -/
theorem mipImprov_ne_nil (amb : ℕ → ℚ) (k : ℕ) (pl : Future.SeasonPlayer)
    (rest : List Future.SeasonPlayer) (lys : Option ℚ) :
    (Future.mipImprov amb k (pl :: rest) lys).1 ≠ [] := by
  by_cases hc : pl.isCustom <;> simp [Future.mipImprov, hc]

/-- `mipSelect` of a nonempty list is `some` (helper). -/
theorem mipSelect_isSome {l : List Future.ImprovEntry} (h : l ≠ []) :
    (Future.mipSelect l).isSome = true := by
  unfold Future.mipSelect Future.sortDescDelta
  refine List.head?_isSome.mpr fun hnil => h ?_
  have hlen := @List.length_mergeSort _ (fun a b => decide (b.delta ≤ a.delta)) l
  rw [hnil] at hlen
  exact List.eq_nil_of_length_eq_zero hlen.symm

/-- The MIP slot of a season record is `none` outside year 2+ (helper,
definitional gate). -/
theorem seasonData_mip_not_lt (ctx : Future.CareerCtx) (y : ℕ) (st : Future.LoopSt)
    (h : ¬ 1 < y) : (Future.seasonData ctx y st).srec.mip = none := by
  change ((if 1 < y then _ else ((none : Option Future.ImprovEntry), _)) :
    Option Future.ImprovEntry × ℕ).1 = none
  rw [if_neg h]

/-- The MIP slot of a season record is awarded in every season from year 2
onward (helper). -/
theorem seasonData_mip_ge_two (ctx : Future.CareerCtx) (y : ℕ) (st : Future.LoopSt)
    (h : 1 < y) : (Future.seasonData ctx y st).srec.mip.isSome = true := by
  change ((if 1 < y then _ else ((none : Option Future.ImprovEntry), _)) :
    Option Future.ImprovEntry × ℕ).1.isSome = true
  rw [if_pos h]
  refine mipSelect_isSome ?_
  exact List.cons_ne_nil _ _

/-- Over any years (all at least 1), each produced season record carries a
MIP award exactly when its year is 2 or later (helper). -/
theorem careerLoop_mip_aux (ctx : Future.CareerCtx) :
    ∀ (years : List ℕ) (st : Future.LoopSt), (∀ y ∈ years, 1 ≤ y) →
      (Future.careerLoop ctx years st).seasons.all
          (fun s => s.mip.isNone == decide (s.year = 1)) =
        st.seasons.all (fun s => s.mip.isNone == decide (s.year = 1))
  | [], _, _ => rfl
  | y :: rest, st, h => by
    have hy : 1 ≤ y := h y (List.mem_cons_self y rest)
    have hrest : ∀ z ∈ rest, 1 ≤ z := fun z hz => h z (List.mem_cons_of_mem y hz)
    show (Future.careerLoop ctx rest (Future.seasonStep ctx y st)).seasons.all _ = _
    rw [careerLoop_mip_aux ctx rest (Future.seasonStep ctx y st) hrest,
      seasonStep_seasons, List.all_append]
    have hrec : ((Future.seasonData ctx y st).srec.mip.isNone ==
        decide ((Future.seasonData ctx y st).srec.year = 1)) = true := by
      rw [seasonData_year]
      by_cases h1 : y = 1
      · rw [seasonData_mip_not_lt ctx y st (by omega)]
        simp [h1]
      · have h2 : 1 < y := by omega
        obtain ⟨v, hv⟩ := Option.isSome_iff_exists.mp (seasonData_mip_ge_two ctx y st h2)
        rw [hv]
        simp [h1]
    simp [hrec]

/-- Over a full career from a clean initial state, every season record
carries a MIP award exactly when its year is 2 or later (helper). -/
theorem careerLoop_mip_full (ctx : Future.CareerCtx) (ty : ℕ) (st : Future.LoopSt)
    (hs : st.seasons = []) :
    (Future.careerLoop ctx (List.range' 1 ty) st).seasons.all
      (fun s => s.mip.isNone == decide (s.year = 1)) = true := by
  rw [careerLoop_mip_aux ctx _ st ?hyp, hs]
  case hyp =>
    intro y hy
    obtain ⟨i, _, rfl⟩ := List.mem_range'.mp hy
    omega
  rfl

/-- The improvement list has one entry per season participant (helper). -/
theorem mipImprov_length (amb : ℕ → ℚ) :
    ∀ (k : ℕ) (sp : List Future.SeasonPlayer) (lys : Option ℚ),
      (Future.mipImprov amb k sp lys).1.length = sp.length
  | _, [], _ => rfl
  | k, pl :: rest, lys => by
    by_cases hc : pl.isCustom <;>
      simp [Future.mipImprov, hc, mipImprov_length amb _ rest lys]

/-- The selected MIP belongs to the improvement list and has the largest
delta in it (helper). -/
theorem mipSelect_max (l : List Future.ImprovEntry) (m : Future.ImprovEntry)
    (hm : Future.mipSelect l = some m) :
    m ∈ l ∧ ∀ e ∈ l, e.delta ≤ m.delta := by
  unfold Future.mipSelect Future.sortDescDelta at hm
  have hsorted := @List.sorted_mergeSort Future.ImprovEntry
    (fun a b => decide (b.delta ≤ a.delta))
    (fun a b c hab hbc => by
      simp only [decide_eq_true_eq] at hab hbc ⊢
      exact le_trans hbc hab)
    (fun a b => by
      simp only [Bool.or_eq_true, decide_eq_true_eq]
      exact le_total b.delta a.delta) l
  cases hsort : l.mergeSort (fun a b => decide (b.delta ≤ a.delta)) with
  | nil =>
    rw [hsort] at hm
    exact absurd hm (by simp)
  | cons a rest =>
    rw [hsort] at hm hsorted
    have ham : a = m := by simpa using hm
    subst ham
    obtain ⟨hhead, _⟩ := List.pairwise_cons.mp hsorted
    constructor
    · exact List.mem_mergeSort.mp (by rw [hsort]; exact List.mem_cons_self _ _)
    · intro e he
      have he' : e ∈ a :: rest := by
        rw [← hsort]
        exact List.mem_mergeSort.mpr he
      rcases List.mem_cons.mp he' with rfl | hrest
      · exact le_refl _
      · simpa using hhead e hrest

/-- Claim C7 as amended: in every simulated career the MIP award is never
determined in year 1 and is determined in every season from year 2 onward;
the winner is the entry of the improvement list (custom player's delta
against the actual prior-year score, background players' delta against the
randomized proxy prior) with the largest delta — which, as the
counterexample shows, need not be positive. -/
theorem claim_C7_mip :
    (∀ (amb : ℕ → ℚ) (k0 : ℕ) (leagueSel : List SrcPlayer → List SrcPlayer)
      (eraTeams : Option (List String)) (eraFilter : String)
      (players : List SrcPlayer) (customName customPosition : String)
      (peak : Future.Baseline) (teamOverride : Option String),
      (Future.simulateCareer amb k0 leagueSel eraTeams eraFilter players
        customName customPosition peak teamOverride).seasons.all
          (fun s => s.mip.isNone == decide (s.year = 1)) = true) ∧
    (∀ (amb : ℕ → ℚ) (k : ℕ) (sp : List Future.SeasonPlayer) (lys : Option ℚ),
      sp ≠ [] →
      ∃ m, Future.mipSelect (Future.mipImprov amb k sp lys).1 = some m ∧
        m ∈ (Future.mipImprov amb k sp lys).1 ∧
        ∀ e ∈ (Future.mipImprov amb k sp lys).1, e.delta ≤ m.delta) := by
  constructor
  · intro amb k0 sel et ef pl cn cp peak tov
    exact careerLoop_mip_full _ _ _ rfl
  · intro amb k sp lys hsp
    have hne : (Future.mipImprov amb k sp lys).1 ≠ [] := by
      intro hnil
      have hlen := mipImprov_length amb k sp lys
      rw [hnil] at hlen
      exact hsp (List.eq_nil_of_length_eq_zero hlen.symm)
    obtain ⟨m, hm⟩ := Option.isSome_iff_exists.mp (mipSelect_isSome hne)
    exact ⟨m, hm, (mipSelect_max _ m hm).1, (mipSelect_max _ m hm).2⟩

/-- Witness for the amended C7 selection property at a concrete
single-entry participant list. -/
theorem claim_C7_mip_witness :
    ([c7sp] : List Future.SeasonPlayer) ≠ [] ∧
    (Future.mipSelect (Future.mipImprov (fun _ => 0) 0 [c7sp] none).1).isSome = true := by
  obtain ⟨m, hm, _, _⟩ := (claim_C7_mip).2 (fun _ => 0) 0 [c7sp] none (by simp)
  exact ⟨by simp, by rw [hm]; rfl⟩

set_option maxHeartbeats 2000000 in
/-- Counterexample to claim C7 as stated: in the concrete two-season
career `c7run` (empty league, declining custom score), season 2 awards MIP
(the tally is 1) to a winner whose delta is negative — there is no
"largest positive delta" participant, yet the award is handed out. -/
theorem claim_C7_counterexample :
    (c7run.seasons.getD 1 dummySeasonRec).mip.isSome = true ∧
    ((c7run.seasons.getD 1 dummySeasonRec).mip.getD Future.dummyImprov).delta < 0 ∧
    c7run.awards.MIP = 1 := by
  with_unfolding_all decide
